import Mathlib

/-! # Otter particle system, shader data types and application loop

A shallow embedding of

* `src/Gameplay/Components/ParticleSystem.cpp` (the transform-feedback particle
  system: construction, `Update`, `Render`, `AddEmitter`, `RenderImGui`,
  `ToJson`, `FromJson`),
* `src/Graphics/GlEnums.h` (`ShaderDataType`, `GetShaderDataTypeCode`,
  `ShaderDataTypeSize`, `ShaderDataTypeComponentCount`), and
* `src/Application/Application.cpp` (the layer loops of `_Load`, `_Update`,
  `_LateUpdate`, `_PreRender`, `_RenderScene`, `_PostRender`, `_Unload`, and the
  game script of `_Update`),

followed by the properties established about them.

Conventions.

* `uint32_t` and `size_t` values are natural numbers; every place where the C++
  arithmetic is modular carries an explicit `% 2 ^ 32` or `% 2 ^ 64`.
* Single-precision floats are an arbitrary type `F` with the operations of
  `FloatOps`; nothing is assumed about rounding. Equality of floats is equality
  of the stored value.
* OpenGL is an external collaborator. The calls a method issues are returned as
  a list of `GlCall`, buffers, vertex arrays and feedback objects being named by
  their index (0 or 1) into the member arrays `_particleBuffers`, `_updateVaos`,
  `_renderVaos` and `_feedbackBuffers`. The result of the primitives-written
  query is an input of `Update`.
* The shader programs created by `Awake` and the owning game object are not
  modelled: `Update` and `Render` are modelled for a component that has been
  awoken, which the scene does before the first frame.
* The game script of `Application::_Update` is modelled in exact arithmetic
  over a linearly ordered field; the clock readings and key states of a frame
  are inputs, and the virtual methods of the layers are external calls that are
  recorded, not run. An object the script looks up by name may be missing from
  the scene; the script then stops at the null pointer it dereferences.
-/

namespace Otter

/-! ## Floats and GLM vectors -/

/-- The float operations the embedded code uses. `ofDecimal m e` is the literal
`m * 10^(-e)` (so `-9.81f` is `ofDecimal (-981) 2`), `div` is `/` on `float`,
`ofNat` is the conversion of an unsigned integer to `float` and `toUInt32` the
conversion of a `float` to `uint32_t`. -/
class FloatOps (F : Type) where
  ofDecimal : Int → Nat → F
  div : F → F → F
  ofNat : Nat → F
  toUInt32 : F → Nat

/-- An exact integer interpretation of the float operations, used to evaluate
the model on concrete inputs. -/
instance instFloatOpsInt : FloatOps Int where
  ofDecimal := fun m _ => m
  div := fun a b => a / b
  ofNat := fun n => (n : Int)
  toUInt32 := fun x => x.toNat % 2 ^ 32

/-- The type `glm::vec2`. -/
structure Vec2 (F : Type) where
  x : F
  y : F
  deriving DecidableEq, Repr

/-- The type `glm::vec3`. -/
structure Vec3 (F : Type) where
  x : F
  y : F
  z : F
  deriving DecidableEq, Repr

/-- The type `glm::vec4`. -/
structure Vec4 (F : Type) where
  x : F
  y : F
  z : F
  w : F
  deriving DecidableEq, Repr

/-- The constructor `glm::vec2(s)`: every component is `s`. -/
def Vec2.splat {F : Type} (s : F) : Vec2 F := ⟨s, s⟩

/-- The constructor `glm::vec3(s)`: every component is `s`. -/
def Vec3.splat {F : Type} (s : F) : Vec3 F := ⟨s, s, s⟩

/-- The constructor `glm::vec4(s)`: every component is `s`. -/
def Vec4.splat {F : Type} (s : F) : Vec4 F := ⟨s, s, s, s⟩

/-! ## Particle data -/

/-- The enumeration `ParticleType`. Only `ParticleType::Emitter` is named in
`ParticleSystem.cpp`; `Particle` stands for every other value. -/
inductive ParticleType
  | Emitter
  | Particle
  deriving DecidableEq, Repr

/-- The struct `ParticleData`, with the six members that `ParticleSystem.cpp`
reads and writes (the six vertex attributes of `Update`). The member `Type` is
spelled `Type_`, `Type` being reserved. -/
structure ParticleData (F : Type) where
  Type_ : ParticleType
  Position : Vec3 F
  Velocity : Vec3 F
  Color : Vec4 F
  Lifetime : F
  Metadata : Vec4 F
  deriving DecidableEq, Repr

/-- The members of `ParticleSystem` that are plain data. The OpenGL object
names (`_particleBuffers`, `_feedbackBuffers`, `_updateVaos`, `_renderVaos`,
`_query`) are assigned by the driver and are referred to by index. -/
structure ParticleSystem (F : Type) where
  _hasInit : Bool
  _maxParticles : Nat
  _numParticles : Nat
  _currentVertexBuffer : Nat
  _currentFeedbackBuffer : Nat
  _gravity : Vec3 F
  _emitters : List (ParticleData F)
  deriving DecidableEq, Repr

/-- The constructor `ParticleSystem::ParticleSystem()`. -/
def ParticleSystem.ctor {F : Type} [FloatOps F] : ParticleSystem F where
  _hasInit := false
  _maxParticles := 1000
  _numParticles := 0
  _currentVertexBuffer := 0
  _currentFeedbackBuffer := 1
  _gravity := ⟨FloatOps.ofDecimal 0 0, FloatOps.ofDecimal 0 0, FloatOps.ofDecimal (-981) 2⟩
  _emitters := []

/-! ## OpenGL calls -/

/-- A vertex array object of the particle system: `_updateVaos[ix]` or
`_renderVaos[ix]`. -/
inductive VertexArrayRef
  | update (ix : Nat)
  | render (ix : Nat)
  deriving DecidableEq, Repr

/-- The OpenGL calls of `Update` and `Render` that create, fill, bind and draw
buffers. Attribute layout calls, uniform uploads and blend/depth toggles carry
no buffer index and are left out. A slot of `BufferData` is `none` for a
`ParticleData` that is still as `memset` left it. -/
inductive GlCall (F : Type)
  | CreateTransformFeedbacks
  | CreateBuffers
  | CreateVertexArrays
  | GenQueries
  | BindVertexArray (vao : Option VertexArrayRef)
  | BindTransformFeedback (ix : Option Nat)
  | BindArrayBuffer (ix : Nat)
  | BufferData (data : List (Option (ParticleData F)))
  | BindBufferBase (ix : Nat)
  | EnableRasterizerDiscard
  | DisableRasterizerDiscard
  | BeginQuery
  | EndQuery
  | GetQueryObject
  | BeginTransformFeedback
  | EndTransformFeedback
  | DrawArrays (first count : Nat)
  | DrawTransformFeedback (ix : Nat)
  deriving DecidableEq, Repr

/-- The temporary array `data` of `Update`: `_maxParticles + _emitters.size()`
zeroed slots, then `data[ix] = _emitters[ix]` for every `ix` below
`_emitters.size()`. -/
def ParticleSystem.initialData {F : Type} (s : ParticleSystem F) : List (Option (ParticleData F)) :=
  (List.range s._emitters.length).foldl
    (fun data ix =>
      match s._emitters[ix]? with
      | some e => data.set ix (some e)
      | none => data)
    (List.replicate (s._maxParticles + s._emitters.length) none)

/-- The body of the loop `for (int ix = 0; ix < 2; ix++)` of the first
`Update`. -/
def ParticleSystem.initBufferCalls {F : Type} (s : ParticleSystem F) (ix : Nat) : List (GlCall F) :=
  [ .BindVertexArray (some (.update ix)),
    .BindTransformFeedback (some ix),
    .BindArrayBuffer ix,
    .BufferData s.initialData,
    .BindBufferBase ix,
    .BindVertexArray (some (.render ix)),
    .BindArrayBuffer ix ]

/-- The block `if (!_hasInit) { ... }` at the top of `Update`. -/
def ParticleSystem.initCalls {F : Type} (s : ParticleSystem F) : List (GlCall F) :=
  [ .CreateTransformFeedbacks, .CreateBuffers, .CreateVertexArrays, .CreateVertexArrays ]
    ++ s.initBufferCalls 0 ++ s.initBufferCalls 1
    ++ [ .BindVertexArray none, .GenQueries ]

/-- The simulation pass of `Update`, from `glEnable(GL_RASTERIZER_DISCARD)` to
`glDisable(GL_RASTERIZER_DISCARD)`. -/
def ParticleSystem.simulationCalls {F : Type} (s : ParticleSystem F) : List (GlCall F) :=
  [ .EnableRasterizerDiscard,
    .BindVertexArray (some (.update s._currentVertexBuffer)),
    .BindTransformFeedback (some s._currentFeedbackBuffer),
    .BeginQuery,
    .BeginTransformFeedback,
    (if !s._hasInit then .DrawArrays 0 s._emitters.length
     else .DrawTransformFeedback s._currentVertexBuffer),
    .EndTransformFeedback,
    .EndQuery,
    .GetQueryObject,
    .BindTransformFeedback none,
    .BindVertexArray none,
    .DisableRasterizerDiscard ]

/-- The value left in `_numParticles` by lines 139-145 of `Update`:
`glGetQueryObjectuiv` stores the query result (a `GLuint`), the comparison and
the subtraction are carried out in `size_t` and the difference is stored back
into the `uint32_t` member. -/
def ParticleSystem.liveCount (queryResult emitterCount : Nat) : Nat :=
  let q := queryResult % 2 ^ 32
  let n := emitterCount % 2 ^ 64
  if q ≥ n then ((q + 2 ^ 64 - n) % 2 ^ 64) % 2 ^ 32 else 0

/-- The method `ParticleSystem::Update()`. `queryResult` is what
`glGetQueryObjectuiv(_query, GL_QUERY_RESULT, ...)` reports for this pass. The
result is the new state and the OpenGL calls issued. -/
def ParticleSystem.Update {F : Type} (s : ParticleSystem F) (queryResult : Nat) :
    ParticleSystem F × List (GlCall F) :=
  ({ s with
      _numParticles := ParticleSystem.liveCount queryResult s._emitters.length
      _hasInit := true
      _currentVertexBuffer := s._currentFeedbackBuffer
      _currentFeedbackBuffer := ((s._currentFeedbackBuffer + 1) % 2 ^ 32) &&& 0x01 },
   (if !s._hasInit then s.initCalls else []) ++ s.simulationCalls)

/-- The method `ParticleSystem::Render()`: the OpenGL calls issued (none before
the first `Update`). The state is not changed. -/
def ParticleSystem.Render {F : Type} (s : ParticleSystem F) : List (GlCall F) :=
  if s._hasInit then
    [ .BindVertexArray (some (.render s._currentVertexBuffer)),
      .BindArrayBuffer s._currentVertexBuffer,
      .DrawTransformFeedback s._currentVertexBuffer,
      .BindVertexArray none ]
  else []

/-- The method `ParticleSystem::AddEmitter`. A failed `LOG_ASSERT` is an
error. -/
def ParticleSystem.AddEmitter {F : Type} [FloatOps F] (s : ParticleSystem F)
    (position direction : Vec3 F) (emitRate : F) (color : Vec4 F) (size : F) :
    Except String (ParticleSystem F) :=
  if s._hasInit then
    .error "Cannot add an emitter after the particle system has been initialized"
  else
    let emitter : ParticleData F :=
      { Type_ := ParticleType.Emitter
        Position := position
        Velocity := direction
        Lifetime := FloatOps.div (FloatOps.ofDecimal 1 0) emitRate
        Color := color
        Metadata := ⟨FloatOps.div (FloatOps.ofDecimal 1 0) emitRate, size,
                     FloatOps.ofDecimal 2 0, FloatOps.ofDecimal 4 0⟩ }
    .ok { s with _emitters := s._emitters ++ [emitter] }

/-! ## Observing the draws of a call sequence -/

/-- What is bound while a call sequence is replayed: the vertex array, the
transform feedback object, and whether a transform feedback is active (between
`glBeginTransformFeedback` and `glEndTransformFeedback`). -/
structure GlBindings where
  vertexArray : Option VertexArrayRef
  transformFeedback : Option Nat
  capturing : Bool
  deriving DecidableEq, Repr

/-- One draw call as OpenGL sees it: the vertex array it reads its vertices
through, the transform feedback object that captures its output (`none` when no
transform feedback is active) and, for `glDrawTransformFeedback`, the feedback
object whose recorded vertex count sizes the draw. -/
structure DrawRecord where
  source : Option VertexArrayRef
  capture : Option Nat
  countFrom : Option Nat
  deriving DecidableEq, Repr

/-- Replay of a call sequence from the bindings `b`, collecting the draws. -/
def drawRecordsFrom {F : Type} (b : GlBindings) : List (GlCall F) → List DrawRecord
  | [] => []
  | .BindVertexArray vao :: cs => drawRecordsFrom { b with vertexArray := vao } cs
  | .BindTransformFeedback ix :: cs => drawRecordsFrom { b with transformFeedback := ix } cs
  | .BeginTransformFeedback :: cs => drawRecordsFrom { b with capturing := true } cs
  | .EndTransformFeedback :: cs => drawRecordsFrom { b with capturing := false } cs
  | .DrawArrays _ _ :: cs =>
      ⟨b.vertexArray, if b.capturing then b.transformFeedback else none, none⟩
        :: drawRecordsFrom b cs
  | .DrawTransformFeedback ix :: cs =>
      ⟨b.vertexArray, if b.capturing then b.transformFeedback else none, some ix⟩
        :: drawRecordsFrom b cs
  | _ :: cs => drawRecordsFrom b cs

/-- The draws of a call sequence issued with nothing bound, which is how
`Update` and `Render` leave the context. -/
def drawRecords {F : Type} (calls : List (GlCall F)) : List DrawRecord :=
  drawRecordsFrom ⟨none, none, false⟩ calls

/-- The state after a run of `Update` calls, one per query result, the first
result first. -/
def ParticleSystem.runUpdates {F : Type} (s : ParticleSystem F) : List Nat → ParticleSystem F
  | [] => s
  | q :: qs => ParticleSystem.runUpdates (s.Update q).1 qs

/-! ## The editor panel -/

/-- What the widgets of one emitter of `RenderImGui` do in a frame: whether
the collapsing header is open, the value each drag widget leaves in the field it
edits (`none` when the widget is not touched), and whether `Delete` is
pressed. -/
structure EmitterWidgets (F : Type) where
  headerOpen : Bool
  position : Option (Vec3 F)
  velocity : Option (Vec3 F)
  color : Option (Vec4 F)
  spawnRate : Option F
  size : Option F
  lifeRange : Option (Vec2 F)
  delete : Bool

/-- The edits of lines 222-235 of `RenderImGui` on one emitter. -/
def EmitterWidgets.apply {F : Type} [FloatOps F] (w : EmitterWidgets F) (emitter : ParticleData F) :
    ParticleData F :=
  let emitter := match w.position with
    | some p => { emitter with Position := p }
    | none => emitter
  let emitter := match w.velocity with
    | some v => { emitter with Velocity := v }
    | none => emitter
  let emitter := match w.color with
    | some c => { emitter with Color := c }
    | none => emitter
  let emitter := match w.spawnRate with
    | some spawnRate =>
        let lifetime := FloatOps.div (FloatOps.ofDecimal 1 0) spawnRate
        { emitter with Lifetime := lifetime, Metadata := { emitter.Metadata with x := lifetime } }
    | none => emitter
  let emitter := match w.size with
    | some y => { emitter with Metadata := { emitter.Metadata with y := y } }
    | none => emitter
  match w.lifeRange with
  | some lifeRange =>
      { emitter with Metadata := { emitter.Metadata with z := lifeRange.x, w := lifeRange.y } }
  | none => emitter

/-- The loop of lines 217-244 of `RenderImGui` over the emitters, the widgets
being consumed in visiting order (an emitter without widget input has its
header closed). A deleted emitter is erased and the loop goes on with the
emitter that moved into its place. -/
def ParticleSystem.editEmitters {F : Type} [FloatOps F] :
    List (ParticleData F) → List (EmitterWidgets F) → List (ParticleData F)
  | [], _ => []
  | emitters, [] => emitters
  | emitter :: emitters, w :: ws =>
      if w.headerOpen then
        if w.delete then ParticleSystem.editEmitters emitters ws
        else w.apply emitter :: ParticleSystem.editEmitters emitters ws
      else emitter :: ParticleSystem.editEmitters emitters ws

/-- The method `ParticleSystem::RenderImGui`, for the widget input of one
frame. `isPlaying` is `app.CurrentScene()->IsPlaying`. -/
def ParticleSystem.RenderImGui {F : Type} [FloatOps F] (s : ParticleSystem F)
    (isPlaying : Bool) (widgets : List (EmitterWidgets F)) (addEmitter : Bool) : ParticleSystem F :=
  if !isPlaying then
    let emitters := ParticleSystem.editEmitters s._emitters widgets
    if addEmitter then
      let emitter : ParticleData F :=
        { Type_ := ParticleType.Emitter
          Position := Vec3.splat (FloatOps.ofDecimal 0 0)
          Velocity := Vec3.splat (FloatOps.ofDecimal 0 0)
          Color := Vec4.splat (FloatOps.ofDecimal 1 0)
          Lifetime := FloatOps.ofDecimal 1 0
          Metadata := ⟨FloatOps.ofDecimal 1 0, FloatOps.ofDecimal 0 0,
                       FloatOps.ofDecimal 1 0, FloatOps.ofDecimal 1 0⟩ }
      { s with _emitters := emitters ++ [emitter] }
    else { s with _emitters := emitters }
  else s

/-! ## The component as a state machine -/

/-- A call of one of the state-changing or drawing methods of the component. -/
inductive Op (F : Type)
  | Update (queryResult : Nat)
  | Render
  | AddEmitter (position direction : Vec3 F) (emitRate : F) (color : Vec4 F) (size : F)
  | RenderImGui (isPlaying : Bool) (widgets : List (EmitterWidgets F)) (addEmitter : Bool)

/-- The state after one call; an error when an assertion of the call fails. -/
def ParticleSystem.step {F : Type} [FloatOps F] (s : ParticleSystem F) :
    Op F → Except String (ParticleSystem F)
  | .Update q => .ok (s.Update q).1
  | .Render => .ok s
  | .AddEmitter position direction emitRate color size =>
      s.AddEmitter position direction emitRate color size
  | .RenderImGui isPlaying widgets addEmitter => .ok (s.RenderImGui isPlaying widgets addEmitter)

/-- The state after a sequence of calls, the first call first. -/
def ParticleSystem.run {F : Type} [FloatOps F] (s : ParticleSystem F) :
    List (Op F) → Except String (ParticleSystem F)
  | [] => .ok s
  | op :: ops =>
      match s.step op with
      | .ok s1 => ParticleSystem.run s1 ops
      | .error e => .error e

/-- Whether a call is an `Update`. -/
def Op.isUpdate {F : Type} : Op F → Bool
  | .Update _ => true
  | _ => false

/-! ## JSON -/

/-- The values of `nlohmann::json` that the component writes and reads back:
null, unsigned and floating numbers, arrays and objects. An object is the list
of its members; a key occurs once. -/
inductive Json (F : Type)
  | null
  | number_unsigned (n : Nat)
  | number_float (x : F)
  | array (elements : List (Json F))
  | object (members : List (String × Json F))

/-- The lookup `find(key)` of `nlohmann::json`: the member of an object with
that key; nothing is found in a value that is not an object. -/
def Json.find {F : Type} : Json F → String → Option (Json F)
  | .object members, key => members.lookup key
  | _, _ => none

/-- The member list with the member `key` set to `v`: replaced where it is, or
added at the end. -/
def Json.setMember {F : Type} (key : String) (v : Json F) :
    List (String × Json F) → List (String × Json F)
  | [] => [(key, v)]
  | (k, old) :: members =>
      if k = key then (k, v) :: members else (k, old) :: Json.setMember key v members

/-- The assignment `j[key] = v` of `nlohmann::json`: null becomes an object,
an object gets the member, any other value throws `type_error`. -/
def Json.set {F : Type} : Json F → String → Json F → Except String (Json F)
  | .null, key, v => .ok (.object [(key, v)])
  | .object members, key, v => .ok (.object (Json.setMember key v members))
  | _, _, _ => .error "type_error.305"

/-- The call `j.push_back(v)` of `nlohmann::json`: null becomes an array of one
element, an array grows at the end, any other value throws `type_error`. -/
def Json.push_back {F : Type} : Json F → Json F → Except String (Json F)
  | .null, v => .ok (.array [v])
  | .array elements, v => .ok (.array (elements ++ [v]))
  | _, _ => .error "type_error.308"

/-- The conversion `get<float>()` of `nlohmann::json`. -/
def Json.getFloat {F : Type} [FloatOps F] : Json F → Except String F
  | .number_float x => .ok x
  | .number_unsigned n => .ok (FloatOps.ofNat n)
  | _ => .error "type_error.302"

/-- The conversion `get<uint32_t>()` of `nlohmann::json`. -/
def Json.getUInt32 {F : Type} [FloatOps F] : Json F → Except String Nat
  | .number_unsigned n => .ok (n % 2 ^ 32)
  | .number_float x => .ok (FloatOps.toUInt32 x)
  | _ => .error "type_error.302"

/-- The member `key` of an object as a float; an error when the member is
missing or is not a number. -/
def Json.floatAt {F : Type} [FloatOps F] (j : Json F) (key : String) : Except String F :=
  match j.find key with
  | some v => v.getFloat
  | none => .error "out_of_range.403"

/-- Modelled from the spec: `Utils/JsonGlmHelpers.h` is not among the sources
and the specification leaves the JSON form of GLM vectors open (scene JSON
serialization is named as glue). A `glm::vec2` is written as the object of its
components `x`, `y`. -/
def Vec2.to_json {F : Type} (v : Vec2 F) : Json F :=
  .object [("x", .number_float v.x), ("y", .number_float v.y)]

/-- Modelled from the spec: `Utils/JsonGlmHelpers.h` is not among the sources.
A `glm::vec3` is written as the object of its components `x`, `y`, `z`. -/
def Vec3.to_json {F : Type} (v : Vec3 F) : Json F :=
  .object [("x", .number_float v.x), ("y", .number_float v.y), ("z", .number_float v.z)]

/-- Modelled from the spec: `Utils/JsonGlmHelpers.h` is not among the sources.
A `glm::vec4` is written as the object of its components `x`, `y`, `z`, `w`. -/
def Vec4.to_json {F : Type} (v : Vec4 F) : Json F :=
  .object [("x", .number_float v.x), ("y", .number_float v.y), ("z", .number_float v.z),
           ("w", .number_float v.w)]

/-- Modelled from the spec: `Utils/JsonGlmHelpers.h` is not among the sources.
A `glm::vec2` is read back from the members `x`, `y`. -/
def Vec2.from_json {F : Type} [FloatOps F] (j : Json F) : Except String (Vec2 F) := do
  let x ← j.floatAt "x"
  let y ← j.floatAt "y"
  pure ⟨x, y⟩

/-- Modelled from the spec: `Utils/JsonGlmHelpers.h` is not among the sources.
A `glm::vec3` is read back from the members `x`, `y`, `z`. -/
def Vec3.from_json {F : Type} [FloatOps F] (j : Json F) : Except String (Vec3 F) := do
  let x ← j.floatAt "x"
  let y ← j.floatAt "y"
  let z ← j.floatAt "z"
  pure ⟨x, y, z⟩

/-- Modelled from the spec: `Utils/JsonGlmHelpers.h` is not among the sources.
A `glm::vec4` is read back from the members `x`, `y`, `z`, `w`. -/
def Vec4.from_json {F : Type} [FloatOps F] (j : Json F) : Except String (Vec4 F) := do
  let x ← j.floatAt "x"
  let y ← j.floatAt "y"
  let z ← j.floatAt "z"
  let w ← j.floatAt "w"
  pure ⟨x, y, z, w⟩

/-- Modelled from the spec: the helper `JsonGet(blob, key, defaultRet)` of
`Utils/JsonGlmHelpers.h` is not among the sources. As its callers use it, it is
the member `key` of `blob` converted to the requested type (`get` is that
conversion) when `blob` has such a member, and `defaultRet` otherwise. -/
def JsonGet {F T : Type} (get : Json F → Except String T) (blob : Json F) (key : String)
    (defaultRet : T) : Except String T :=
  match blob.find key with
  | some v => get v
  | none => .ok defaultRet

/-- The object `blob` that `ToJson` writes for one emitter (lines 296-303). -/
def ParticleSystem.emitterToJson {F : Type} (emitter : ParticleData F) : Json F :=
  .object
    [ ("position", emitter.Position.to_json),
      ("velocity", emitter.Velocity.to_json),
      ("spawn_rate", .number_float emitter.Lifetime),
      ("color", emitter.Color.to_json),
      ("cone_angle", .number_float emitter.Metadata.y),
      ("lifetime_range", (Vec2.mk emitter.Metadata.z emitter.Metadata.w).to_json) ]

/-- The loop of lines 295-305 of `ToJson`: every emitter is pushed onto
`result["emitters"]` (a member that `operator[]` does not find is null). -/
def ParticleSystem.pushEmitters {F : Type} :
    Json F → List (ParticleData F) → Except String (Json F)
  | result, [] => .ok result
  | result, emitter :: emitters => do
      let slot := (result.find "emitters").getD .null
      let slot ← slot.push_back (ParticleSystem.emitterToJson emitter)
      let result ← result.set "emitters" slot
      ParticleSystem.pushEmitters result emitters

/-- The method `ParticleSystem::ToJson`. -/
def ParticleSystem.ToJson {F : Type} (s : ParticleSystem F) : Except String (Json F) := do
  let result : Json F :=
    .object [ ("gravity", s._gravity.to_json), ("max_particles", .number_unsigned s._maxParticles) ]
  let result ← result.set "emitters" .null
  ParticleSystem.pushEmitters result s._emitters

/-- The body of the loop of `FromJson` (lines 318-325): the emitter read from
one element of the `emitters` array. -/
def ParticleSystem.emitterFromJson {F : Type} [FloatOps F] (data : Json F) :
    Except String (ParticleData F) := do
  let position ← JsonGet Vec3.from_json data "position" (Vec3.splat (FloatOps.ofDecimal 0 0))
  let velocity ← JsonGet Vec3.from_json data "velocity" (Vec3.splat (FloatOps.ofDecimal 0 0))
  let lifetime ← JsonGet Json.getFloat data "spawn_rate" (FloatOps.ofDecimal 1 0)
  let color ← JsonGet Vec4.from_json data "color" (Vec4.splat (FloatOps.ofDecimal 1 0))
  let lifeRange ←
    JsonGet Vec2.from_json data "lifetime_range" (Vec2.splat (FloatOps.ofDecimal 1 0))
  let coneAngle ← JsonGet Json.getFloat data "cone_angle" (FloatOps.ofDecimal 0 0)
  pure
    { Type_ := ParticleType.Emitter
      Position := position
      Velocity := velocity
      Lifetime := lifetime
      Color := color
      Metadata := ⟨lifetime, coneAngle, lifeRange.x, lifeRange.y⟩ }

/-- The loop of lines 317-328 of `FromJson`: the emitters read from the
elements of the array are pushed onto `result->_emitters` in order. -/
def ParticleSystem.readEmitters {F : Type} [FloatOps F] :
    ParticleSystem F → List (Json F) → Except String (ParticleSystem F)
  | result, [] => .ok result
  | result, data :: rest => do
      let emitter ← ParticleSystem.emitterFromJson data
      ParticleSystem.readEmitters { result with _emitters := result._emitters ++ [emitter] } rest

/-- The method `ParticleSystem::FromJson`. A conversion that throws is an
error. The guard `blob.contains("emitters") && blob["emitters"].is_array()` is
the first case of the match: the member exists and is an array. -/
def ParticleSystem.FromJson {F : Type} [FloatOps F] (blob : Json F) :
    Except String (ParticleSystem F) := do
  let result : ParticleSystem F := ParticleSystem.ctor
  let gravity ← JsonGet Vec3.from_json blob "gravity" result._gravity
  let result := { result with _gravity := gravity }
  let maxParticles ← JsonGet Json.getUInt32 blob "max_particled" result._maxParticles
  let result := { result with _maxParticles := maxParticles }
  match blob.find "emitters" with
  | some (.array elements) => ParticleSystem.readEmitters result elements
  | _ => .ok result

/-- The particle systems a program can hold: one that was constructed or read
by `FromJson`, after any sequence of calls. -/
inductive ParticleSystem.Reachable {F : Type} [FloatOps F] : ParticleSystem F → Prop
  | ctor : ParticleSystem.Reachable ParticleSystem.ctor
  | fromJson (blob : Json F) (s : ParticleSystem F) :
      ParticleSystem.FromJson blob = .ok s → ParticleSystem.Reachable s
  | step (s s1 : ParticleSystem F) (op : Op F) :
      ParticleSystem.Reachable s → s.step op = .ok s1 → ParticleSystem.Reachable s1

/-! ## Shader data types (`Graphics/GlEnums.h`) -/

/-- The enumeration `ShaderDataType` (underlying type `uint32_t`), with its
enumerators in the order of the header. -/
inductive ShaderDataType
  | None
  | Float
  | Float2
  | Float3
  | Float4
  | Mat2
  | Mat3
  | Mat4
  | Mat2x3
  | Mat2x4
  | Mat3x2
  | Mat3x4
  | Mat4x2
  | Mat4x3
  | Int
  | Int2
  | Int3
  | Int4
  | Uint
  | Uint2
  | Uint3
  | Uint4
  | Uint64
  | Double
  | Double2
  | Double3
  | Double4
  | Dmat2
  | Dmat3
  | Dmat4
  | Dmat2x3
  | Dmat2x4
  | Dmat3x2
  | Dmat3x4
  | Dmat4x2
  | Dmat4x3
  | Bool
  | Bool2
  | Bool3
  | Bool4
  | Tex1D
  | Tex1D_Array
  | Tex1D_Shadow
  | Tex1D_ShadowArray
  | Tex2D
  | Tex2D_Rect
  | Tex2D_Rect_Shadow
  | Tex2D_Array
  | Tex2D_Shadow
  | Tex2D_ShadowArray
  | Tex2D_Multisample
  | Tex2D_MultisampleArray
  | Tex3D
  | TexCube
  | TexCubeShadow
  | Tex1D_Int
  | Tex1D_Int_Array
  | Tex2D_Int
  | Tex2D_Int_Rect
  | Tex2D_Int_Array
  | Tex2D_Int_Multisample
  | Tex2D_Int_MultisampleArray
  | Tex3D_Int
  | TexCube_Int
  | Tex1D_Uint
  | Tex2D_Uint_Rect
  | Tex1D_Uint_Array
  | Tex2D_Uint
  | Tex2D_Uint_Array
  | Tex2D_Uint_Multisample
  | Tex2D_Uint_MultisampleArray
  | Tex3D_Uint
  | TexCube_Uint
  | BufferTexture
  | BufferTextureInt
  | BufferTextureUint
  deriving DecidableEq, Repr

/-- The `uint32_t` value of each enumerator, digit for digit as the header
writes it (the digit separators removed). -/
def ShaderDataType.val : ShaderDataType → Nat
  | .None                        => 0
  | .Float                       => 0b00000001000000000001
  | .Float2                      => 0b00000001000000000010
  | .Float3                      => 0b00000001000000000011
  | .Float4                      => 0b00000001000000000100
  | .Mat2                        => 0b00000010000000010010
  | .Mat3                        => 0b00000010000000011011
  | .Mat4                        => 0b00000010000000100100
  | .Mat2x3                      => 0b00000010000000010011
  | .Mat2x4                      => 0b00000010000000010100
  | .Mat3x2                      => 0b00000010000000011010
  | .Mat3x4                      => 0b00000010000000011100
  | .Mat4x2                      => 0b00000010000000100010
  | .Mat4x3                      => 0b00000010000000100011
  | .Int                         => 0b00000100000000000001
  | .Int2                        => 0b00000100000000000010
  | .Int3                        => 0b00000100000000000011
  | .Int4                        => 0b00000100000000000100
  | .Uint                        => 0b00001000000000000001
  | .Uint2                       => 0b00001000000000000010
  | .Uint3                       => 0b00001000000000000011
  | .Uint4                       => 0b00001000000000000100
  | .Uint64                      => 0b00001000000000001001
  | .Double                      => 0b00010000000000000001
  | .Double2                     => 0b00010000000000000010
  | .Double3                     => 0b00010000000000000011
  | .Double4                     => 0b00010000000000000100
  | .Dmat2                       => 0b00100000000000100010
  | .Dmat3                       => 0b00100000000000110011
  | .Dmat4                       => 0b00100000000001000100
  | .Dmat2x3                     => 0b00100000000000100011
  | .Dmat2x4                     => 0b00100000000000100100
  | .Dmat3x2                     => 0b00100000000000110010
  | .Dmat3x4                     => 0b00100000000000110100
  | .Dmat4x2                     => 0b00100000000001000010
  | .Dmat4x3                     => 0b00100000000001000011
  | .Bool                        => 0b01000000000000000001
  | .Bool2                       => 0b01000000000000000010
  | .Bool3                       => 0b01000000000000000011
  | .Bool4                       => 0b01000000000000000100
  | .Tex1D                       => 0b10000000000000000001
  | .Tex1D_Array                 => 0b10000000000000010001
  | .Tex1D_Shadow                => 0b10000000000000100001
  | .Tex1D_ShadowArray           => 0b10000000000000110001
  | .Tex2D                       => 0b10000000000000000010
  | .Tex2D_Rect                  => 0b10000000000000001010
  | .Tex2D_Rect_Shadow           => 0b10000000000000101010
  | .Tex2D_Array                 => 0b10000000000000010010
  | .Tex2D_Shadow                => 0b10000000000000100010
  | .Tex2D_ShadowArray           => 0b10000000000000110010
  | .Tex2D_Multisample           => 0b10000000000001000010
  | .Tex2D_MultisampleArray      => 0b10000000000001010010
  | .Tex3D                       => 0b10000000000000000011
  | .TexCube                     => 0b10000000000000000100
  | .TexCubeShadow               => 0b10000000000000100100
  | .Tex1D_Int                   => 0b10000000000100000001
  | .Tex1D_Int_Array             => 0b10000000000100010001
  | .Tex2D_Int                   => 0b10000000000100000010
  | .Tex2D_Int_Rect              => 0b10000000000100001010
  | .Tex2D_Int_Array             => 0b10000000000100010010
  | .Tex2D_Int_Multisample       => 0b10000000000101000010
  | .Tex2D_Int_MultisampleArray  => 0b10000000000101010010
  | .Tex3D_Int                   => 0b10000000000100000011
  | .TexCube_Int                 => 0b10000000000100000100
  | .Tex1D_Uint                  => 0b10000000001000000001
  | .Tex2D_Uint_Rect             => 0b10000000001000001010
  | .Tex1D_Uint_Array            => 0b10000000001000010001
  | .Tex2D_Uint                  => 0b10000000001000000010
  | .Tex2D_Uint_Array            => 0b10000000001000010010
  | .Tex2D_Uint_Multisample      => 0b10000000001001000010
  | .Tex2D_Uint_MultisampleArray => 0b10000000001001010010
  | .Tex3D_Uint                  => 0b10000000001000000011
  | .TexCube_Uint                => 0b10000000001000000100
  | .BufferTexture               => 0b10000000000010000000
  | .BufferTextureInt            => 0b10000000000110000000
  | .BufferTextureUint           => 0b10000000001010000000

/-- The mask `ShaderDataType_TypeMask`. -/
def ShaderDataType_TypeMask : Nat := 0b11111111000000000000

/-- The mask `ShaderDataType_Size1Mask`. -/
def ShaderDataType_Size1Mask : Nat := 0b00000000000000000111

/-- The mask `ShaderDataType_Size2Mask`. -/
def ShaderDataType_Size2Mask : Nat := 0b00000000000000111000

/-- The enumerator `ShaderDataTypecode::None`. -/
def ShaderDataTypecode.None : Nat := 0

/-- The enumerator `ShaderDataTypecode::Float`. -/
def ShaderDataTypecode.Float : Nat := 0b00000001000000000000

/-- The enumerator `ShaderDataTypecode::Matrix`. -/
def ShaderDataTypecode.Matrix : Nat := 0b00000010000000000000

/-- The enumerator `ShaderDataTypecode::Int`. -/
def ShaderDataTypecode.Int : Nat := 0b00000100000000000000

/-- The enumerator `ShaderDataTypecode::Uint`. -/
def ShaderDataTypecode.Uint : Nat := 0b00001000000000000000

/-- The enumerator `ShaderDataTypecode::Double`. -/
def ShaderDataTypecode.Double : Nat := 0b00010000000000000000

/-- The enumerator `ShaderDataTypecode::MatrixD`. -/
def ShaderDataTypecode.MatrixD : Nat := 0b00100000000000000000

/-- The enumerator `ShaderDataTypecode::Bool`. -/
def ShaderDataTypecode.Bool : Nat := 0b01000000000000000000

/-- The enumerator `ShaderDataTypecode::Texture`. -/
def ShaderDataTypecode.Texture : Nat := 0b10000000000000000000

/-- The function `GetShaderDataTypeCode`, on the `uint32_t` value of its
argument; the result is the `uint32_t` value of the `ShaderDataTypecode`. -/
def GetShaderDataTypeCode (type : Nat) : Nat :=
  type &&& ShaderDataType_TypeMask

/-- The function `ShaderDataTypeSize`, on the `uint32_t` value of its
argument. The products are `uint32_t` products. -/
def ShaderDataTypeSize (type : Nat) : Nat :=
  if type = ShaderDataType.Uint64.val then 8
  else
    let typeCode := GetShaderDataTypeCode type
    if typeCode = ShaderDataTypecode.Float ∨ typeCode = ShaderDataTypecode.Int
        ∨ typeCode = ShaderDataTypecode.Uint then
      (4 * (type &&& ShaderDataType_Size1Mask)) % 2 ^ 32
    else if typeCode = ShaderDataTypecode.Matrix then
      (4 * (type &&& ShaderDataType_Size1Mask)
        * ((type &&& ShaderDataType_Size2Mask) >>> 3)) % 2 ^ 32
    else if typeCode = ShaderDataTypecode.Double then
      (8 * (type &&& ShaderDataType_Size1Mask)) % 2 ^ 32
    else if typeCode = ShaderDataTypecode.MatrixD then
      (8 * (type &&& ShaderDataType_Size1Mask)
        * ((type &&& ShaderDataType_Size2Mask) >>> 3)) % 2 ^ 32
    else if typeCode = ShaderDataTypecode.Bool then
      type &&& ShaderDataType_Size1Mask
    else if typeCode = ShaderDataTypecode.Texture then 4
    else 0

/-- The function `ShaderDataTypeComponentCount`, on the `uint32_t` value of its
argument. In the matrix case the C++ expression
`type & Size1Mask * ((type & Size2Mask) >> 3)` multiplies before it masks, `*`
binding tighter than `&`. -/
def ShaderDataTypeComponentCount (type : Nat) : Nat :=
  let typeCode := type &&& ShaderDataType_TypeMask
  if typeCode = ShaderDataTypecode.Float ∨ typeCode = ShaderDataTypecode.Int
      ∨ typeCode = ShaderDataTypecode.Uint ∨ typeCode = ShaderDataTypecode.Double
      ∨ typeCode = ShaderDataTypecode.Bool then
    type &&& ShaderDataType_Size1Mask
  else if typeCode = ShaderDataTypecode.Matrix ∨ typeCode = ShaderDataTypecode.MatrixD then
    type &&& ((ShaderDataType_Size1Mask * ((type &&& ShaderDataType_Size2Mask) >>> 3)) % 2 ^ 32)
  else if typeCode = ShaderDataTypecode.Texture then 1
  else 1

/-- What the name of an enumerator says it is: the invalid type, a scalar or
vector with `n` components, the 64-bit unsigned integer, a single- or
double-precision matrix `MatCxR`/`DmatCxR` (`MatN` being `MatNxN`), or a
texture. -/
inductive ShaderDataShape
  | invalid
  | floats (n : Nat)
  | ints (n : Nat)
  | uints (n : Nat)
  | uint64
  | doubles (n : Nat)
  | bools (n : Nat)
  | mat (c r : Nat)
  | dmat (c r : Nat)
  | texture
  deriving DecidableEq, Repr

/-- The shape each enumerator is named after. -/
def ShaderDataType.shape : ShaderDataType → ShaderDataShape
  | .None => .invalid
  | .Float => .floats 1
  | .Float2 => .floats 2
  | .Float3 => .floats 3
  | .Float4 => .floats 4
  | .Mat2 => .mat 2 2
  | .Mat3 => .mat 3 3
  | .Mat4 => .mat 4 4
  | .Mat2x3 => .mat 2 3
  | .Mat2x4 => .mat 2 4
  | .Mat3x2 => .mat 3 2
  | .Mat3x4 => .mat 3 4
  | .Mat4x2 => .mat 4 2
  | .Mat4x3 => .mat 4 3
  | .Int => .ints 1
  | .Int2 => .ints 2
  | .Int3 => .ints 3
  | .Int4 => .ints 4
  | .Uint => .uints 1
  | .Uint2 => .uints 2
  | .Uint3 => .uints 3
  | .Uint4 => .uints 4
  | .Uint64 => .uint64
  | .Double => .doubles 1
  | .Double2 => .doubles 2
  | .Double3 => .doubles 3
  | .Double4 => .doubles 4
  | .Dmat2 => .dmat 2 2
  | .Dmat3 => .dmat 3 3
  | .Dmat4 => .dmat 4 4
  | .Dmat2x3 => .dmat 2 3
  | .Dmat2x4 => .dmat 2 4
  | .Dmat3x2 => .dmat 3 2
  | .Dmat3x4 => .dmat 3 4
  | .Dmat4x2 => .dmat 4 2
  | .Dmat4x3 => .dmat 4 3
  | .Bool => .bools 1
  | .Bool2 => .bools 2
  | .Bool3 => .bools 3
  | .Bool4 => .bools 4
  | _ => .texture

/-! ## Predicates and sample values used in the statements -/

/-- The two buffer indices are 0 and 1 in one order or the other. -/
def ParticleSystem.IndicesOk {F : Type} (s : ParticleSystem F) : Prop :=
  (s._currentVertexBuffer = 0 ∧ s._currentFeedbackBuffer = 1)
    ∨ (s._currentVertexBuffer = 1 ∧ s._currentFeedbackBuffer = 0)

/-- A system with two emitters over the integer interpretation of floats. -/
def ParticleSystem.twoEmitters : ParticleSystem Int :=
  { (ParticleSystem.ctor : ParticleSystem Int) with
    _emitters :=
      [ ⟨ParticleType.Emitter, ⟨0, 0, 0⟩, ⟨0, -1, 10⟩, ⟨0, 1, 0, 1⟩, 3, ⟨3, 1, 2, 4⟩⟩,
        ⟨ParticleType.Emitter, ⟨1, 2, 3⟩, ⟨0, 0, 1⟩, ⟨1, 1, 1, 1⟩, 5, ⟨5, 0, 1, 1⟩⟩ ] }

/-- A sample call sequence: one emitter is added, then two frames are
simulated and drawn. -/
def ParticleSystem.sampleOps : List (Op Int) :=
  [ .AddEmitter ⟨0, 0, 0⟩ ⟨0, -1, 10⟩ 10 ⟨0, 1, 0, 1⟩ 1, .Update 1, .Render, .Update 3, .Render ]

/-- What `FromJson` makes of an emitter written by `ToJson`: the type is
`Emitter` and `Metadata.x` is the lifetime; the members that are written are
read back as they are. -/
def ParticleData.reread {F : Type} (emitter : ParticleData F) : ParticleData F :=
  { emitter with
    Type_ := ParticleType.Emitter
    Metadata := ⟨emitter.Lifetime, emitter.Metadata.y, emitter.Metadata.z, emitter.Metadata.w⟩ }

/-- The value `ToJson` leaves in the member `emitters`: null when there is no
emitter, else the array of the emitter objects in order. -/
def ParticleSystem.emittersToJson {F : Type} : List (ParticleData F) → Json F
  | [] => .null
  | emitter :: emitters => .array ((emitter :: emitters).map ParticleSystem.emitterToJson)

/-- Every element of `_emitters` has the type `Emitter`. -/
def ParticleSystem.EmittersTyped {F : Type} (s : ParticleSystem F) : Prop :=
  ∀ e ∈ s._emitters, e.Type_ = ParticleType.Emitter

/-- The system after `AddEmitter((1,2,3), (0,-1,10), 1, (0,1,0,1), 7)` on a
constructed system, over the integer interpretation of floats. -/
def ParticleSystem.oneEmitter : ParticleSystem Int :=
  { (ParticleSystem.ctor : ParticleSystem Int) with
    _emitters := [ ⟨ParticleType.Emitter, ⟨1, 2, 3⟩, ⟨0, -1, 10⟩, ⟨0, 1, 0, 1⟩, 1, ⟨1, 7, 2, 4⟩⟩ ] }

/-- Replay of a call sequence collecting the uploads: each `glBufferData` on
`GL_ARRAY_BUFFER` with the index of the particle buffer bound there at that
moment (`bound`, `none` before any `glBindBuffer`) and the data uploaded. -/
def bufferUploadsFrom {F : Type} (bound : Option Nat) :
    List (GlCall F) → List (Option Nat × List (Option (ParticleData F)))
  | [] => []
  | .BindArrayBuffer ix :: cs => bufferUploadsFrom (some ix) cs
  | .BufferData data :: cs => (bound, data) :: bufferUploadsFrom bound cs
  | _ :: cs => bufferUploadsFrom bound cs

/-- Whether a call is a draw call. -/
def GlCall.isDraw {F : Type} : GlCall F → Bool
  | .DrawArrays _ _ => true
  | .DrawTransformFeedback _ => true
  | _ => false

/-! ## The application loop (`Application/Application.cpp`) -/

/-- An application layer as the dispatch loops of `Application` read it: the
member `Enabled` and the flag word `Overrides` (an `AppLayerFunctions`, a
`uint32_t` flag enumeration). -/
structure ApplicationLayer where
  Enabled : Bool
  Overrides : Nat
  deriving DecidableEq, Repr

/-- The enumerators of `AppLayerFunctions` that `Application.cpp` tests. The
enumeration is declared in `ApplicationLayer.h`, which is not among the sources;
the values are taken as given. -/
structure AppLayerFunctions where
  OnAppLoad : Nat
  OnAppUnload : Nat
  OnUpdate : Nat
  OnLateUpdate : Nat
  OnPreRender : Nat
  OnRender : Nat
  OnPostRender : Nat
  deriving DecidableEq, Repr

/-- The virtual methods of a layer that the loops below call. -/
inductive LayerCallback
  | OnAppLoad
  | OnAppUnload
  | OnUpdate
  | OnLateUpdate
  | OnPreRender
  | OnRender
  | OnPostRender
  deriving DecidableEq, Repr

/-- The test `layer->Enabled && *(layer->Overrides & flag)`: the layer is
enabled and the bitwise and of its `Overrides` with the flag is not zero. -/
def ApplicationLayer.handles (layer : ApplicationLayer) (flag : Nat) : Bool :=
  layer.Enabled && (layer.Overrides &&& flag != 0)

/-- The body shared by the layer loops: the layers are visited in the order
given, each with its position in `_layers`, and `callback` is called on those
that pass the test. The result is the calls made, as pairs of the position of
the layer and the method called. The callbacks are taken not to change
`_layers`, `Enabled` or `Overrides`. -/
def Application.callLayers (flag : Nat) (callback : LayerCallback) :
    List (Nat × ApplicationLayer) → List (Nat × LayerCallback)
  | [] => []
  | (ix, layer) :: rest =>
      if layer.handles flag then (ix, callback) :: Application.callLayers flag callback rest
      else Application.callLayers flag callback rest

/-- The layer loop of `Application::_Load`
(`for (const auto& layer : _layers)`). -/
def Application._Load (flags : AppLayerFunctions) (_layers : List ApplicationLayer) :
    List (Nat × LayerCallback) :=
  Application.callLayers flags.OnAppLoad .OnAppLoad _layers.enum

/-- The layer loop of `Application::_LateUpdate`. -/
def Application._LateUpdate (flags : AppLayerFunctions) (_layers : List ApplicationLayer) :
    List (Nat × LayerCallback) :=
  Application.callLayers flags.OnLateUpdate .OnLateUpdate _layers.enum

/-- The layer loop of `Application::_PreRender`. -/
def Application._PreRender (flags : AppLayerFunctions) (_layers : List ApplicationLayer) :
    List (Nat × LayerCallback) :=
  Application.callLayers flags.OnPreRender .OnPreRender _layers.enum

/-- The layer loop of `Application::_RenderScene`. -/
def Application._RenderScene (flags : AppLayerFunctions) (_layers : List ApplicationLayer) :
    List (Nat × LayerCallback) :=
  Application.callLayers flags.OnRender .OnRender _layers.enum

/-- The layer loop of `Application::_PostRender`:
`for (auto it = _layers.begin(); it != _layers.end(); it++)`. -/
def Application._PostRender (flags : AppLayerFunctions) (_layers : List ApplicationLayer) :
    List (Nat × LayerCallback) :=
  Application.callLayers flags.OnPostRender .OnPostRender _layers.enum

/-- The layer loop of `Application::_Unload`:
`for (auto it = _layers.crbegin(); it != _layers.crend(); it++)`. -/
def Application._Unload (flags : AppLayerFunctions) (_layers : List ApplicationLayer) :
    List (Nat × LayerCallback) :=
  Application.callLayers flags.OnAppUnload .OnAppUnload _layers.enum.reverse

/-- What it is for `calls` to be the dispatch of `callback` over `_layers` in
registration order: the positions called are strictly increasing (so the order
is that of `_layers` and no layer is called twice), every call is of
`callback`, and the layer at a position is called exactly when it is enabled
and its `Overrides` has a bit of `flag`. -/
def Application.DispatchedInOrder (flag : Nat) (callback : LayerCallback)
    (_layers : List ApplicationLayer) (calls : List (Nat × LayerCallback)) : Prop :=
  (calls.map Prod.fst).Pairwise (· < ·)
    ∧ (∀ c ∈ calls, c.2 = callback)
    ∧ ∀ ix : Nat, (ix, callback) ∈ calls ↔
        ∃ layer, _layers[ix]? = some layer ∧ layer.Enabled = true ∧ layer.Overrides &&& flag ≠ 0

/-- The same in reverse registration order: the positions called are strictly
decreasing. -/
def Application.DispatchedInReverse (flag : Nat) (callback : LayerCallback)
    (_layers : List ApplicationLayer) (calls : List (Nat × LayerCallback)) : Prop :=
  (calls.map Prod.fst).Pairwise (· > ·)
    ∧ (∀ c ∈ calls, c.2 = callback)
    ∧ ∀ ix : Nat, (ix, callback) ∈ calls ↔
        ∃ layer, _layers[ix]? = some layer ∧ layer.Enabled = true ∧ layer.Overrides &&& flag ≠ 0

/-! ## The scripted game loop of `Application::_Update`

The floats of the game script are elements of a linearly ordered field `K`:
the arithmetic is exact. `Scene::FindObjectByName` returns a null pointer for a
name that no object of the scene has (`Scene.cpp`, lines 113-118), and the
script dereferences what it returns: a run of the script either returns or
stops at the first null pointer it dereferences. -/

/-- A game object of the scene as the script uses it: position, rotation and
scale. -/
structure GameObject (K : Type) where
  position : Vec3 K
  rotation : Vec3 K
  scale : Vec3 K
  deriving DecidableEq, Repr

/-- The state the game script of `_Update` reads and writes: the file-level
variables of `Application.cpp` (`JTime` to `playerFlying`, lines 298-307), the
flags `paused` to `playerlose` that are declared outside `Application.cpp`, and
the objects it looks up by name in the current scene. `ladybug` is the object
`DefaultSceneLayer::_CreateScene` creates at line 892, which the script
dereferences from its first block on. Each of `Main Camera`, `Shadow Light`,
`deadbug` and `Particles` is `none` when the scene has no object of that name.
`lights` is `none` when the scene has no object named `Lights`, and else lists
its children, each with the intensity of its `Light` component (`none` for a
child without that component). -/
structure Game (K : Type) where
  JTime : K
  JTemp : K
  FTime : K
  FTemp : K
  jumpo : Bool
  jumpheight : K
  x : K
  playerFlying : Bool
  paused : Bool
  playermove : Bool
  followplayer : Bool
  winner : Bool
  collision : Bool
  playerlose : Bool
  ladybug : GameObject K
  mainCamera : Option (GameObject K)
  shadowLight : Option (GameObject K)
  deadbug : Option (GameObject K)
  particles : Option (GameObject K)
  lights : Option (List (Option K))
  deriving DecidableEq, Repr

/-- What a frame reads from outside: the two readings of `glfwGetTime()` (in
the jump code and in the fly code) and, for each key tested, whether
`InputEngine::GetKeyState` returns the state it is compared with
(`Pressed` for SPACE and UP, `Down` for DOWN, 1, P and Y). -/
structure FrameInput (K : Type) where
  jumpClock : K
  flyClock : K
  spacePressed : Bool
  upPressed : Bool
  downDown : Bool
  key1Down : Bool
  pDown : Bool
  yDown : Bool
  deriving DecidableEq, Repr

/-- The call `SetPostion(v)` on a game object. -/
def GameObject.SetPostion {K : Type} (o : GameObject K) (v : Vec3 K) : GameObject K :=
  { o with position := v }

/-- The parabola of line 338: `(-4 * pow(x - 1, 2) + 4) + 1`. -/
def Application.jumpHeight {K : Type} [LinearOrderedField K] (x : K) : K :=
  (-4 * (x - 1) ^ 2 + 4) + 1

/-- The block `//Jump Code` of `_Update` (lines 319-343). The second component
is the z position the block sets on the ladybug, when it sets one. -/
def Application.jumpCode {K : Type} [LinearOrderedField K] (g : Game K) (inp : FrameInput K) :
    Game K × Option K :=
  let g : Game K := if inp.spacePressed then { g with jumpo := true } else g
  let r : Game K × Option K :=
    if g.jumpo = true then
      let JTime := inp.jumpClock - g.JTemp
      let JTime := JTime / 2.5
      ({ g with
          JTime := JTime
          ladybug := (g.ladybug.SetPostion
            ⟨g.ladybug.position.x, g.ladybug.position.y, g.jumpheight⟩) },
        some g.jumpheight)
    else ({ g with JTemp := inp.jumpClock }, none)
  let g : Game K := r.1
  let g : Game K := { g with x := g.JTime * 8 }
  let g : Game K := { g with jumpheight := Application.jumpHeight g.x }
  let g : Game K := if g.jumpheight < 0 then { g with jumpo := false } else g
  (g, r.2)

/-- The block `//Fly Code` of `_Update` (lines 345-376). -/
def Application.flyCode {K : Type} [LinearOrderedField K] (g : Game K) (inp : FrameInput K) :
    Game K :=
  let g : Game K := if inp.upPressed then { g with playerFlying := true, jumpo := false } else g
  let g :=
    if g.playerFlying = true then
      let FTime := inp.flyClock - g.FTemp
      let FTime := (FTime / 2.5) * 8
      let g : Game K := { g with FTime := FTime }
      if g.ladybug.position.z < 10.1 then
        { g with ladybug := (g.ladybug.SetPostion
            ⟨g.ladybug.position.x, g.ladybug.position.y, g.ladybug.position.z + 1⟩) }
      else g
    else { g with FTemp := inp.flyClock }
  if g.FTime > 9 then
    let g : Game K := { g with playerFlying := false }
    if g.ladybug.position.z > 1 then
      { g with ladybug := (g.ladybug.SetPostion
          ⟨g.ladybug.position.x, g.ladybug.position.y, g.ladybug.position.z - 1⟩) }
    else g
  else g

/-- The slide code (lines 378-384). -/
def Application.slideCode {K : Type} [LinearOrderedField K] (g : Game K) (inp : FrameInput K) :
    Game K :=
  if inp.downDown then { g with ladybug := { g.ladybug with scale := ⟨0.5, 0.15, 0.5⟩ } }
  else { g with ladybug := { g.ladybug with scale := ⟨0.3, 0.3, 0.3⟩ } }

/-- The pause toggle and the forward move (lines 405-430). -/
def Application.moveCode {K : Type} [LinearOrderedField K] (g : Game K) (inp : FrameInput K) :
    Game K :=
  let g :=
    if inp.pDown then
      if g.paused = true then { g with paused := false }
      else if g.paused = false then { g with paused := true }
      else g
    else g
  let g : Game K := if g.paused = true then { g with playermove := false } else g
  let g : Game K := if g.paused = false then { g with playermove := true } else g
  if g.playermove = true then
    { g with ladybug := (g.ladybug.SetPostion
        ⟨g.ladybug.position.x - 0.4, g.ladybug.position.y, g.ladybug.position.z⟩) }
  else g

/-- The follow toggle (lines 432-442). -/
def Application.followToggle {K : Type} (g : Game K) (inp : FrameInput K) : Game K :=
  if inp.yDown then
    if g.followplayer = true then { g with followplayer := false }
    else if g.followplayer = false then { g with followplayer := true }
    else g
  else g

/-- The intensity the light toggle (lines 386-403) gives the light of child
`i` of `Lights`: 0 for every child while key 1 is down, else 250, 500 or 1 by
the range of `i`, and nothing for a child past 30. -/
def Application.lightLevel {K : Type} [LinearOrderedField K] (key1Down : Bool) (i : Nat) :
    Option K :=
  if key1Down then some 0
  else if i ≤ 10 then some 250
  else if i ≤ 21 then some 500
  else if i ≤ 30 then some 1
  else none

/-- The loop of the light toggle over the children from position `i` on, the
children before it (`done`) being dealt with. An error is the list of children
at the moment a child whose intensity is to be set has no `Light` component
(`Get<Light>()` is null). -/
def Application.setLights {K : Type} [LinearOrderedField K] (key1Down : Bool) :
    List (Option K) → Nat → List (Option K) → Except (List (Option K)) (List (Option K))
  | done, _, [] => .ok done
  | done, i, child :: rest =>
      match (Application.lightLevel key1Down i : Option K), child with
      | none, _ => Application.setLights key1Down (done ++ [child]) (i + 1) rest
      | some v, some _ => Application.setLights key1Down (done ++ [some v]) (i + 1) rest
      | some _, none => .error (done ++ child :: rest)

/-- The light toggle (lines 386-403). An error is the state at the moment a
null pointer is dereferenced: `Lights` is not found, or a child has no
`Light`. -/
def Application.lightsCode {K : Type} [LinearOrderedField K] (g : Game K) (inp : FrameInput K) :
    Except (Game K) (Game K) :=
  match g.lights with
  | none => .error g
  | some children =>
      match Application.setLights inp.key1Down [] 0 children with
      | .ok children => .ok { g with lights := some children }
      | .error children => .error { g with lights := some children }

/-- The camera follow (lines 444-448). The test
`FindObjectByName("ladybug") != nullptr` holds, the ladybug being there; an
error is the state when `Main Camera` is not found. -/
def Application.followCamera {K : Type} [LinearOrderedField K] (g : Game K) :
    Except (Game K) (Game K) :=
  if g.followplayer = true then
    match g.mainCamera with
    | none => .error g
    | some camera =>
        let camera : GameObject K := camera.SetPostion ⟨g.ladybug.position.x - 5, 11.480, 6.290⟩
        let camera : GameObject K := { camera with rotation := ⟨84, 0, -180⟩ }
        .ok { g with mainCamera := some camera }
  else .ok g

/-- Whether `x` lies in the strip of a mushroom: `x < hi && x > lo`. -/
def Application.inStrip {K : Type} [LinearOrderedField K] (x hi lo : K) : Bool :=
  decide (x < hi) && decide (x > lo)

/-- The collision tests at the end of `_Update` (lines 474-532): whether any
of the eight `collision = true` assignments is reached. -/
def Application.hitsMushroom {K : Type} [LinearOrderedField K] (p : Vec3 K) : Bool :=
  (decide (p.z < 1.56) &&
      (Application.inStrip p.x (-49.66) (-50.41) || Application.inStrip p.x (-99.66) (-100.41)
        || Application.inStrip p.x (-249.66) (-250.41)
        || Application.inStrip p.x (-279.66) (-280.41)
        || Application.inStrip p.x (-309.66) (-310.41)))
    || (decide (p.z < 3.5) && Application.inStrip p.x (-149.66) (-150.41))
    || (decide (p.z < 4) &&
      (Application.inStrip p.x (-199.66) (-200.41) || Application.inStrip p.x (-349.66) (-350.41)))

/-- The win code (lines 450-460). -/
def Application.winCode {K : Type} [LinearOrderedField K] (g : Game K) : Game K :=
  let g : Game K := if g.ladybug.position.x < -406 then { g with winner := true } else g
  if g.winner = true then
    { g with paused := true, ladybug := g.ladybug.SetPostion ⟨0, 0, 0⟩, winner := false }
  else g

/-- The collision reset (lines 462-468). An error is the state when `deadbug`
is not found, `paused` being set already. -/
def Application.collisionReset {K : Type} [LinearOrderedField K] (g : Game K) :
    Except (Game K) (Game K) :=
  if g.collision = true then
    let g : Game K := { g with paused := true }
    match g.deadbug with
    | none => .error g
    | some deadbug =>
        let deadbug : GameObject K := deadbug.SetPostion
          ⟨g.ladybug.position.x, g.ladybug.position.y + 2, g.ladybug.position.z⟩
        .ok { g with
              deadbug := some deadbug
              ladybug := g.ladybug.SetPostion ⟨0, 0, 0⟩
              collision := false }
  else .ok g

/-- Line 470: `Particles` is put where `deadbug` is. An error is the state
when either of them is not found. -/
def Application.particlesFollow {K : Type} (g : Game K) : Except (Game K) (Game K) :=
  match g.particles, g.deadbug with
  | some particles, some deadbug =>
      let particles : GameObject K := particles.SetPostion
        ⟨deadbug.position.x, deadbug.position.y, deadbug.position.z⟩
      .ok { g with particles := some particles }
  | _, _ => .error g

/-- Line 472: `Shadow Light` is put at the position of `Main Camera` plus
(-15, 0, +15). An error is the state when either of them is not found. -/
def Application.shadowFollow {K : Type} [LinearOrderedField K] (g : Game K) :
    Except (Game K) (Game K) :=
  match g.shadowLight, g.mainCamera with
  | some shadowLight, some camera =>
      let shadowLight : GameObject K := shadowLight.SetPostion
        ⟨camera.position.x - 15, camera.position.y, camera.position.z + 15⟩
      .ok { g with shadowLight := some shadowLight }
  | _, _ => .error g

/-- The collision tests (lines 474-532). -/
def Application.collisionTests {K : Type} [LinearOrderedField K] (g : Game K) : Game K :=
  if g.playerlose = false then
    if Application.hitsMushroom g.ladybug.position then { g with collision := true } else g
  else g

/-- The script of `_Update` after the jump code (lines 345-532): fly, slide,
lights, pause and move, follow toggle, camera follow, win code, collision
reset, particles, shadow light, collision tests. An error is the state at the
first null pointer dereferenced. -/
def Application.afterJump {K : Type} [LinearOrderedField K] (g : Game K) (inp : FrameInput K) :
    Except (Game K) (Game K) := do
  let g : Game K := Application.flyCode g inp
  let g : Game K := Application.slideCode g inp
  let g ← Application.lightsCode g inp
  let g : Game K := Application.moveCode g inp
  let g : Game K := Application.followToggle g inp
  let g ← Application.followCamera g
  let g : Game K := Application.winCode g
  let g ← Application.collisionReset g
  let g ← Application.particlesFollow g
  let g ← Application.shadowFollow g
  pure (Application.collisionTests g)

/-- The game script of `_Update` (lines 316-532) for one frame: the state it
returns with, or the state at the null pointer it stops at, and the z position
written by the jump code. -/
def Application.gameLoop {K : Type} [LinearOrderedField K] (g : Game K) (inp : FrameInput K) :
    Except (Game K) (Game K) × Option K :=
  let r := Application.jumpCode g inp
  (Application.afterJump r.1 inp, r.2)

/-- The method `Application::_Update`: the calls of the layer loop, then the
game script run on the state the layers leave. -/
def Application._Update {K : Type} [LinearOrderedField K] (flags : AppLayerFunctions)
    (_layers : List ApplicationLayer) (g : Game K) (inp : FrameInput K) :
    List (Nat × LayerCallback) × Except (Game K) (Game K) × Option K :=
  (Application.callLayers flags.OnUpdate .OnUpdate _layers.enum, Application.gameLoop g inp)

/-- The z positions the jump code sets on the ladybug over a sequence of
frames, the first frame first. No frame runs after one that stopped at a null
pointer. -/
def Application.jumpWrites {K : Type} [LinearOrderedField K] (g : Game K) :
    List (FrameInput K) → List K
  | [] => []
  | inp :: frames =>
      let r := Application.gameLoop g inp
      let later : List K :=
        match r.1 with
        | .ok g1 => Application.jumpWrites g1 frames
        | .error _ => []
      match r.2 with
      | some z => z :: later
      | none => later

/-- Sample flag values, one bit each. -/
def Application.sampleFlags : AppLayerFunctions :=
  { OnAppLoad := 1, OnAppUnload := 2, OnUpdate := 16, OnLateUpdate := 32, OnPreRender := 64,
    OnRender := 128, OnPostRender := 256 }

/-- Three sample layers: the first and the third are enabled and override
every callback, the second is disabled. -/
def Application.sampleLayers : List ApplicationLayer :=
  [ ⟨true, 511⟩, ⟨false, 511⟩, ⟨true, 511⟩ ]

/-- The position `DefaultSceneLayer::_CreateScene` gives the ladybug
(`ladybug->SetPostion(glm::vec3(6.f, 0.0f, 1.f))`, line 895). -/
def DefaultSceneLayer.ladybugStart {K : Type} [LinearOrderedField K] : Vec3 K :=
  ⟨6, 0, 1⟩

/-- The first frame of the program over the rationals: the file-level
variables have the initial values of lines 298-307; the scene has the objects
`Scene::Scene` and `DefaultSceneLayer::_CreateScene` create, with the
positions they set (ladybug (6, 0, 1), camera (0, 6.8, 2), shadow light
(3, 3, 5), 22 lights of intensity 250 and 500), and no object named
`deadbug`; the rotations and the flags declared elsewhere have sample
values. -/
def Application.startGame : Game ℚ :=
  { JTime := 0, JTemp := 0, FTime := 0, FTemp := 0, jumpo := false, jumpheight := 0, x := 0,
    playerFlying := false,
    paused := false, playermove := true, followplayer := true, winner := false,
    collision := false, playerlose := false,
    ladybug := ⟨DefaultSceneLayer.ladybugStart, ⟨90, 0, 90⟩, ⟨1/2, 1/2, 1/2⟩⟩,
    mainCamera := some ⟨⟨0, 34/5, 2⟩, ⟨90, 0, -180⟩, ⟨4/5, 4/5, 4/5⟩⟩,
    shadowLight := some ⟨⟨3, 3, 5⟩, ⟨0, 0, 0⟩, ⟨1, 1, 1⟩⟩,
    deadbug := none,
    particles := some ⟨⟨0, 0, 0⟩, ⟨0, 0, 0⟩, ⟨1, 1, 1⟩⟩,
    lights := some (List.replicate 11 (some 250) ++ List.replicate 11 (some 500)) }

/-- The same state in a scene that also has an object named `deadbug`, which
the scene of `_CreateScene` has not. -/
def Application.startGameWithDeadbug : Game ℚ :=
  { Application.startGame with deadbug := some ⟨⟨0, 0, 0⟩, ⟨0, 0, 0⟩, ⟨1, 1, 1⟩⟩ }

/-- A frame at clock reading `t` in which no key is in a tested state, except
SPACE when `space` is set. -/
def Application.frameAt (t : ℚ) (space : Bool) : FrameInput ℚ :=
  { jumpClock := t, flyClock := t, spacePressed := space, upPressed := false, downDown := false,
    key1Down := false, pDown := false, yDown := false }

/-- Four frames half a second apart: SPACE is pressed in the first and in the
last. -/
def Application.sampleFrames : List (FrameInput ℚ) :=
  [ Application.frameAt 0 true, Application.frameAt (1/2) false, Application.frameAt 1 false,
    Application.frameAt (3/2) true ]

/-! # Properties -/

/-! ## Double buffering -/

theorem ParticleSystem.indicesOk_ctor {F : Type} [FloatOps F] :
    (ParticleSystem.ctor : ParticleSystem F).IndicesOk :=
  Or.inl ⟨rfl, rfl⟩

theorem ParticleSystem.indicesOk_update {F : Type} (s : ParticleSystem F) (q : Nat)
    (h : s.IndicesOk) : (s.Update q).1.IndicesOk := by
  rcases h with ⟨hv, hf⟩ | ⟨hv, hf⟩
  · right
    simp [ParticleSystem.Update, hf]
  · left
    simp [ParticleSystem.Update, hf]

theorem ParticleSystem.runUpdates_append {F : Type} (s : ParticleSystem F) (qs rs : List Nat) :
    s.runUpdates (qs ++ rs) = (s.runUpdates qs).runUpdates rs := by
  induction qs generalizing s with
  | nil => rfl
  | cons q qs ih => simp [ParticleSystem.runUpdates, ih]

theorem ParticleSystem.indicesOk_runUpdates {F : Type} (s : ParticleSystem F) (qs : List Nat)
    (h : s.IndicesOk) : (s.runUpdates qs).IndicesOk := by
  induction qs generalizing s with
  | nil => exact h
  | cons q qs ih => exact ih _ (ParticleSystem.indicesOk_update s q h)

theorem ParticleSystem.hasInit_update {F : Type} (s : ParticleSystem F) (q : Nat) :
    (s.Update q).1._hasInit = true := rfl

theorem ParticleSystem.hasInit_runUpdates {F : Type} (s : ParticleSystem F) (qs : List Nat) :
    (s.runUpdates qs)._hasInit = (s._hasInit || !qs.isEmpty) := by
  induction qs generalizing s with
  | nil => simp [ParticleSystem.runUpdates]
  | cons q qs ih => simp [ParticleSystem.runUpdates, ih, ParticleSystem.hasInit_update]

theorem ParticleSystem.drawRecords_update {F : Type} (s : ParticleSystem F) (q : Nat) :
    drawRecords (s.Update q).2
      = [⟨some (.update s._currentVertexBuffer), some s._currentFeedbackBuffer,
          if s._hasInit then some s._currentVertexBuffer else none⟩] := by
  cases h : s._hasInit <;>
    simp [ParticleSystem.Update, ParticleSystem.initCalls, ParticleSystem.initBufferCalls,
      ParticleSystem.simulationCalls, drawRecords, drawRecordsFrom, h]

theorem ParticleSystem.drawRecords_render {F : Type} (s : ParticleSystem F)
    (h : s._hasInit = true) :
    drawRecords (s.Render : List (GlCall F))
      = [⟨some (.render s._currentVertexBuffer), none, some s._currentVertexBuffer⟩] := by
  simp [ParticleSystem.Render, drawRecords, drawRecordsFrom, h]

/-- C1. Double-buffer index invariant: after any number of `Update` calls
on a constructed system (one call per query result in `qs`), both buffer indices
are 0 or 1 and differ; a further `Update` makes the old feedback index the
vertex index and the other index the feedback index; and two further `Update`s
give back both indices. -/
theorem ParticleSystem.double_buffer_invariant {F : Type} [FloatOps F] (qs : List Nat) :
    let s := (ParticleSystem.ctor : ParticleSystem F).runUpdates qs
    (s._currentVertexBuffer = 0 ∨ s._currentVertexBuffer = 1)
      ∧ (s._currentFeedbackBuffer = 0 ∨ s._currentFeedbackBuffer = 1)
      ∧ s._currentVertexBuffer ≠ s._currentFeedbackBuffer
      ∧ (∀ q : Nat,
          (s.Update q).1._currentVertexBuffer = s._currentFeedbackBuffer
            ∧ (s.Update q).1._currentFeedbackBuffer = 1 - s._currentFeedbackBuffer
            ∧ (s.Update q).1._currentFeedbackBuffer ≠ (s.Update q).1._currentVertexBuffer)
      ∧ (∀ q1 q2 : Nat,
          ((s.Update q1).1.Update q2).1._currentVertexBuffer = s._currentVertexBuffer
            ∧ ((s.Update q1).1.Update q2).1._currentFeedbackBuffer = s._currentFeedbackBuffer) := by
  intro s
  have h : s.IndicesOk :=
    ParticleSystem.indicesOk_runUpdates _ qs ParticleSystem.indicesOk_ctor
  rcases h with ⟨hv, hf⟩ | ⟨hv, hf⟩ <;>
    simp [ParticleSystem.Update, hv, hf]

/-- C2. Ping-pong read/write relation: take a constructed system after any
number of `Update` calls (one per query result in `qs`) and perform two more.
Each of them issues exactly one draw, reading through the update vertex array
of one index and capturing into the feedback object of the other index; the
second reads through the index the first captured into and captures into the
index the first read through; the very first `Update` reads through index 0 and
draws the emitters with `glDrawArrays`, every later one sizes its draw from the
feedback object of the index it reads; and `Render` after an `Update` issues
exactly one draw, not captured, through the render vertex array of the index
that `Update` captured into, sized from the feedback object of that index. -/
theorem ParticleSystem.ping_pong {F : Type} [FloatOps F] (qs : List Nat) (q1 q2 : Nat) :
    let s := (ParticleSystem.ctor : ParticleSystem F).runUpdates qs
    let u1 := s.Update q1
    let u2 := u1.1.Update q2
    ∃ r w : Nat,
      ((r = 0 ∧ w = 1) ∨ (r = 1 ∧ w = 0))
        ∧ (qs = [] → r = 0)
        ∧ drawRecords u1.2
            = [⟨some (.update r), some w, if qs = [] then none else some r⟩]
        ∧ drawRecords u2.2 = [⟨some (.update w), some r, some w⟩]
        ∧ drawRecords (u1.1.Render : List (GlCall F)) = [⟨some (.render w), none, some w⟩]
        ∧ drawRecords (u2.1.Render : List (GlCall F)) = [⟨some (.render r), none, some r⟩] := by
  intro s u1 u2
  have hs : s.IndicesOk :=
    ParticleSystem.indicesOk_runUpdates _ qs ParticleSystem.indicesOk_ctor
  have hinit : s._hasInit = !qs.isEmpty := by
    simpa [ParticleSystem.ctor] using
      ParticleSystem.hasInit_runUpdates (ParticleSystem.ctor : ParticleSystem F) qs
  have hfirst : qs = [] → s._currentVertexBuffer = 0 := by
    intro h
    simp [s, h, ParticleSystem.runUpdates, ParticleSystem.ctor]
  have e1 := ParticleSystem.drawRecords_update s q1
  have e2 := ParticleSystem.drawRecords_update u1.1 q2
  have e3 := ParticleSystem.drawRecords_render u1.1 (ParticleSystem.hasInit_update s q1)
  have e4 := ParticleSystem.drawRecords_render u2.1 (ParticleSystem.hasInit_update u1.1 q2)
  have hv1 : u1.1._currentVertexBuffer = s._currentFeedbackBuffer := rfl
  have hi1 : u1.1._hasInit = true := rfl
  have hv2 : u2.1._currentVertexBuffer = u1.1._currentFeedbackBuffer := rfl
  have hf1 : u1.1._currentFeedbackBuffer = s._currentVertexBuffer := by
    rcases hs with ⟨hv, hf⟩ | ⟨hv, hf⟩ <;> simp [u1, ParticleSystem.Update, hv, hf]
  refine ⟨s._currentVertexBuffer, s._currentFeedbackBuffer, hs, hfirst, ?_, ?_, ?_, ?_⟩
  · rw [e1, hinit]
    cases qs <;> simp
  · rw [e2, hv1, hf1, hi1]
    simp
  · rw [e3, hv1]
  · rw [e4, hv2, hf1]

/-! ## Live particle count -/

theorem ParticleSystem.liveCount_eq (q n : Nat) (hq : q < 2 ^ 32) (hn : n < 2 ^ 64) :
    ParticleSystem.liveCount q n = if q ≥ n then q - n else 0 := by
  unfold ParticleSystem.liveCount
  simp only [Nat.mod_eq_of_lt hq, Nat.mod_eq_of_lt hn]
  split
  · rename_i h
    have h1 : q + 2 ^ 64 - n = (q - n) + 2 ^ 64 := by omega
    have h2 : q - n < 2 ^ 64 := by omega
    have h3 : q - n < 2 ^ 32 := by omega
    rw [h1, Nat.add_mod_right, Nat.mod_eq_of_lt h2, Nat.mod_eq_of_lt h3]
  · rfl

/-- C3. Live particle count: after an `Update` whose query reports `q`
primitives (a `GLuint`) on a system with `n` emitters, `_numParticles` is
`q - n` when `q >= n` and 0 otherwise; when the subtraction is performed its
result is the exact integer difference, so it does not wrap. -/
theorem ParticleSystem.numParticles_after_update {F : Type} (s : ParticleSystem F) (q : Nat)
    (hq : q < 2 ^ 32) (hn : s._emitters.length < 2 ^ 64) :
    (q ≥ s._emitters.length →
        (((s.Update q).1._numParticles : Nat) : Int) = (q : Int) - (s._emitters.length : Int))
      ∧ (q < s._emitters.length → (s.Update q).1._numParticles = 0)
      ∧ (s.Update q).1._numParticles = (if q ≥ s._emitters.length then q - s._emitters.length else 0)
      ∧ (s.Update q).1._numParticles < 2 ^ 32 := by
  have h : (s.Update q).1._numParticles = ParticleSystem.liveCount q s._emitters.length := rfl
  rw [h, ParticleSystem.liveCount_eq q _ hq hn]
  refine ⟨?_, ?_, rfl, ?_⟩
  · intro hge
    rw [if_pos hge]
    omega
  · intro hlt
    rw [if_neg (by omega)]
  · split <;> omega

theorem ParticleSystem.numParticles_after_update_witness :
    (7 : Nat) < 2 ^ 32 ∧ ParticleSystem.twoEmitters._emitters.length < 2 ^ 64
      ∧ (ParticleSystem.twoEmitters.Update 7).1._numParticles = 5
      ∧ (ParticleSystem.twoEmitters.Update 1).1._numParticles = 0 :=
  ⟨by decide, by decide,
    (ParticleSystem.numParticles_after_update ParticleSystem.twoEmitters 7
      (by decide) (by decide)).2.2.1,
    (ParticleSystem.numParticles_after_update ParticleSystem.twoEmitters 1
      (by decide) (by decide)).2.1 (by decide)⟩

/-! ## Initialization and `AddEmitter` -/

theorem ParticleSystem.hasInit_step {F : Type} [FloatOps F] (s s1 : ParticleSystem F) (op : Op F)
    (h : s.step op = .ok s1) : s1._hasInit = (s._hasInit || op.isUpdate) := by
  cases op with
  | Update q =>
      simp only [ParticleSystem.step, Except.ok.injEq] at h
      subst h
      simp [ParticleSystem.Update, Op.isUpdate]
  | Render =>
      simp only [ParticleSystem.step, Except.ok.injEq] at h
      subst h
      simp [Op.isUpdate]
  | AddEmitter position direction emitRate color size =>
      simp only [ParticleSystem.step, ParticleSystem.AddEmitter] at h
      split at h
      · cases h
      · simp only [Except.ok.injEq] at h
        subst h
        simp [Op.isUpdate]
  | RenderImGui isPlaying widgets addEmitter =>
      simp only [ParticleSystem.step, Except.ok.injEq] at h
      subst h
      simp only [ParticleSystem.RenderImGui, Op.isUpdate, Bool.or_false]
      split
      · split <;> rfl
      · rfl

theorem ParticleSystem.hasInit_run {F : Type} [FloatOps F] (ops : List (Op F))
    (s s1 : ParticleSystem F) (h : s.run ops = .ok s1) :
    s1._hasInit = (s._hasInit || ops.any Op.isUpdate) := by
  induction ops generalizing s with
  | nil =>
      simp only [ParticleSystem.run, Except.ok.injEq] at h
      subst h
      simp
  | cons op ops ih =>
      simp only [ParticleSystem.run] at h
      split at h
      · rename_i s2 hstep
        rw [ih s2 h, ParticleSystem.hasInit_step s s2 op hstep]
        simp [Bool.or_assoc]
      · cases h

theorem ParticleSystem.addEmitter_ok_iff {F : Type} [FloatOps F] (s : ParticleSystem F)
    (position direction : Vec3 F) (emitRate : F) (color : Vec4 F) (size : F) :
    (∃ s1, s.AddEmitter position direction emitRate color size = .ok s1) ↔ s._hasInit = false := by
  unfold ParticleSystem.AddEmitter
  cases s._hasInit <;> simp

/-- C4. No emitter after initialization: in the state reached from the
constructor by any sequence of calls that all pass their assertions, `_hasInit`
is true exactly when an `Update` is among the calls made so far (so it is false
from construction until the first `Update` has run and true ever after), and
`AddEmitter`, whatever its arguments, passes its assertion exactly when no
`Update` is among them. -/
theorem ParticleSystem.addEmitter_only_before_update {F : Type} [FloatOps F]
    (ops : List (Op F)) (s : ParticleSystem F)
    (h : (ParticleSystem.ctor : ParticleSystem F).run ops = .ok s) :
    (s._hasInit = true ↔ ∃ op ∈ ops, op.isUpdate = true)
      ∧ (s._hasInit = false ↔ ∀ op ∈ ops, op.isUpdate = false)
      ∧ ∀ (position direction : Vec3 F) (emitRate : F) (color : Vec4 F) (size : F),
          (∃ s1, s.AddEmitter position direction emitRate color size = .ok s1)
            ↔ ∀ op ∈ ops, op.isUpdate = false := by
  have hi := ParticleSystem.hasInit_run ops _ s h
  have h0 : (ParticleSystem.ctor : ParticleSystem F)._hasInit = false := rfl
  rw [h0, Bool.false_or] at hi
  have hfalse : s._hasInit = false ↔ ∀ op ∈ ops, op.isUpdate = false := by
    rw [hi]
    simp
  refine ⟨?_, hfalse, ?_⟩
  · rw [hi]
    simp
  · intro position direction emitRate color size
    rw [ParticleSystem.addEmitter_ok_iff, hfalse]

theorem ParticleSystem.addEmitter_only_before_update_witness :
    (∃ s : ParticleSystem Int,
      (ParticleSystem.ctor : ParticleSystem Int).run ParticleSystem.sampleOps = .ok s
        ∧ (s._hasInit = true ↔ ∃ op ∈ ParticleSystem.sampleOps, op.isUpdate = true)) :=
  ⟨(((ParticleSystem.ctor : ParticleSystem Int).run
        (ParticleSystem.sampleOps.take 1)).toOption.getD ParticleSystem.ctor).runUpdates [1, 3],
    rfl,
    (ParticleSystem.addEmitter_only_before_update ParticleSystem.sampleOps _ rfl).1⟩

/-- C7. Postcondition of `AddEmitter`: on a system that has not been
initialized the call succeeds; the emitters are the old emitters, unchanged and
in place, followed by one new emitter with `Type = Emitter`, the given position,
direction (as velocity) and color, `Lifetime = 1.0f / emitRate` and
`Metadata = (1.0f / emitRate, size, 2.0f, 4.0f)`; every other member keeps its
value. -/
theorem ParticleSystem.addEmitter_post {F : Type} [FloatOps F] (s : ParticleSystem F)
    (position direction : Vec3 F) (emitRate : F) (color : Vec4 F) (size : F)
    (h : s._hasInit = false) :
    ∃ s1, s.AddEmitter position direction emitRate color size = .ok s1
      ∧ s1._emitters = s._emitters ++
          [{ Type_ := ParticleType.Emitter
             Position := position
             Velocity := direction
             Color := color
             Lifetime := FloatOps.div (FloatOps.ofDecimal 1 0) emitRate
             Metadata := ⟨FloatOps.div (FloatOps.ofDecimal 1 0) emitRate, size,
                          FloatOps.ofDecimal 2 0, FloatOps.ofDecimal 4 0⟩ }]
      ∧ s1._emitters.length = s._emitters.length + 1
      ∧ (∀ i (hi : i < s._emitters.length), s1._emitters[i]? = some s._emitters[i])
      ∧ s1._hasInit = s._hasInit
      ∧ s1._maxParticles = s._maxParticles
      ∧ s1._numParticles = s._numParticles
      ∧ s1._currentVertexBuffer = s._currentVertexBuffer
      ∧ s1._currentFeedbackBuffer = s._currentFeedbackBuffer
      ∧ s1._gravity = s._gravity := by
  have hs : s.AddEmitter position direction emitRate color size
      = .ok { s with _emitters := s._emitters ++
          [{ Type_ := ParticleType.Emitter
             Position := position
             Velocity := direction
             Color := color
             Lifetime := FloatOps.div (FloatOps.ofDecimal 1 0) emitRate
             Metadata := ⟨FloatOps.div (FloatOps.ofDecimal 1 0) emitRate, size,
                          FloatOps.ofDecimal 2 0, FloatOps.ofDecimal 4 0⟩ }] } := by
    simp [ParticleSystem.AddEmitter, h]
  refine ⟨_, hs, rfl, by simp, ?_, rfl, rfl, rfl, rfl, rfl, rfl⟩
  intro i hi
  simp [List.getElem?_append_left hi, List.getElem?_eq_getElem hi]

theorem ParticleSystem.addEmitter_post_witness :
    ParticleSystem.twoEmitters._hasInit = false
      ∧ ∃ s1, ParticleSystem.twoEmitters.AddEmitter ⟨1, 1, 1⟩ ⟨0, 0, 5⟩ 1 ⟨1, 0, 0, 1⟩ 7 = .ok s1
          ∧ s1._emitters = ParticleSystem.twoEmitters._emitters ++
              [⟨ParticleType.Emitter, ⟨1, 1, 1⟩, ⟨0, 0, 5⟩, ⟨1, 0, 0, 1⟩, 1, ⟨1, 7, 2, 4⟩⟩] :=
  ⟨rfl,
    match ParticleSystem.addEmitter_post ParticleSystem.twoEmitters
        ⟨1, 1, 1⟩ ⟨0, 0, 5⟩ 1 ⟨1, 0, 0, 1⟩ 7 rfl with
    | ⟨s1, h1, h2, _⟩ => ⟨s1, h1, h2⟩⟩

/-! ## Shader data types -/

/-- C8. Size of the scalar, vector, single-precision matrix and texture
types: `ShaderDataTypeSize` gives `4 * n` for a Float, Int or Uint type with
`n` components, `8 * n` for a Double type with `n` components, `n` for a Bool
type with `n` components, 8 for `Uint64`, `4 * C * R` for `MatCxR`, 4 for every
texture type and 0 for `None` (nothing is said here of the double-precision
matrices). -/
theorem ShaderDataTypeSize_spec (t : ShaderDataType) :
    match t.shape with
    | .invalid => ShaderDataTypeSize t.val = 0
    | .floats n => ShaderDataTypeSize t.val = 4 * n
    | .ints n => ShaderDataTypeSize t.val = 4 * n
    | .uints n => ShaderDataTypeSize t.val = 4 * n
    | .uint64 => ShaderDataTypeSize t.val = 8
    | .doubles n => ShaderDataTypeSize t.val = 8 * n
    | .bools n => ShaderDataTypeSize t.val = n
    | .mat c r => ShaderDataTypeSize t.val = 4 * c * r
    | .dmat _ _ => True
    | .texture => ShaderDataTypeSize t.val = 4 := by
  cases t <;> simp only [ShaderDataType.shape] <;> decide

/-- C9, evaluated on the code: the size computed for each double-precision
matrix type. None is `8 * C * R`, which is 32, 72, 128, 48, 64, 48, 96, 64,
96 in this order: the constants keep the row length in bits 0-3 and the column
length in bits 4-6, one bit higher than the layout the masks read. -/
theorem ShaderDataTypeSize_dmat :
    ShaderDataTypeSize ShaderDataType.Dmat2.val = 64
      ∧ ShaderDataTypeSize ShaderDataType.Dmat3.val = 144
      ∧ ShaderDataTypeSize ShaderDataType.Dmat4.val = 0
      ∧ ShaderDataTypeSize ShaderDataType.Dmat2x3.val = 96
      ∧ ShaderDataTypeSize ShaderDataType.Dmat2x4.val = 128
      ∧ ShaderDataTypeSize ShaderDataType.Dmat3x2.val = 96
      ∧ ShaderDataTypeSize ShaderDataType.Dmat3x4.val = 192
      ∧ ShaderDataTypeSize ShaderDataType.Dmat4x2.val = 0
      ∧ ShaderDataTypeSize ShaderDataType.Dmat4x3.val = 0
      ∧ (ShaderDataType.Dmat2.val &&& ShaderDataType_Size2Mask) >>> 3 = 4
      ∧ (ShaderDataType.Mat2.val &&& ShaderDataType_Size2Mask) >>> 3 = 2 := by
  decide

/-- C10, evaluated on the code: the component count computed for each matrix
type. The product `C * R` is 4, 9, 16, 6, 8, 6, 12, 8, 12 in the order of the
single-precision types below, and the same for the double-precision ones. -/
theorem ShaderDataTypeComponentCount_matrix :
    ShaderDataTypeComponentCount ShaderDataType.Mat2.val = 2
      ∧ ShaderDataTypeComponentCount ShaderDataType.Mat3.val = 17
      ∧ ShaderDataTypeComponentCount ShaderDataType.Mat4.val = 4
      ∧ ShaderDataTypeComponentCount ShaderDataType.Mat2x3.val = 2
      ∧ ShaderDataTypeComponentCount ShaderDataType.Mat2x4.val = 4
      ∧ ShaderDataTypeComponentCount ShaderDataType.Mat3x2.val = 16
      ∧ ShaderDataTypeComponentCount ShaderDataType.Mat3x4.val = 20
      ∧ ShaderDataTypeComponentCount ShaderDataType.Mat4x2.val = 0
      ∧ ShaderDataTypeComponentCount ShaderDataType.Mat4x3.val = 0
      ∧ ShaderDataTypeComponentCount ShaderDataType.Dmat2.val = 0
      ∧ ShaderDataTypeComponentCount ShaderDataType.Dmat3.val = 34
      ∧ ShaderDataTypeComponentCount ShaderDataType.Dmat4.val = 0
      ∧ ShaderDataTypeComponentCount ShaderDataType.Dmat2x3.val = 0
      ∧ ShaderDataTypeComponentCount ShaderDataType.Dmat2x4.val = 4
      ∧ ShaderDataTypeComponentCount ShaderDataType.Dmat3x2.val = 34
      ∧ ShaderDataTypeComponentCount ShaderDataType.Dmat3x4.val = 32
      ∧ ShaderDataTypeComponentCount ShaderDataType.Dmat4x2.val = 0
      ∧ ShaderDataTypeComponentCount ShaderDataType.Dmat4x3.val = 0 := by
  decide

/-! ## JSON round trip -/

theorem vec2_from_json_to_json {F : Type} [FloatOps F] (v : Vec2 F) :
    Vec2.from_json v.to_json = .ok v := by
  simp [Vec2.from_json, Vec2.to_json, Json.floatAt, Json.find, List.lookup, Json.getFloat,
    bind, Except.bind, pure, Except.pure]

theorem vec3_from_json_to_json {F : Type} [FloatOps F] (v : Vec3 F) :
    Vec3.from_json v.to_json = .ok v := by
  simp [Vec3.from_json, Vec3.to_json, Json.floatAt, Json.find, List.lookup, Json.getFloat,
    bind, Except.bind, pure, Except.pure]

theorem vec4_from_json_to_json {F : Type} [FloatOps F] (v : Vec4 F) :
    Vec4.from_json v.to_json = .ok v := by
  simp [Vec4.from_json, Vec4.to_json, Json.floatAt, Json.find, List.lookup, Json.getFloat,
    bind, Except.bind, pure, Except.pure]

theorem ParticleSystem.emitterFromJson_emitterToJson {F : Type} [FloatOps F]
    (emitter : ParticleData F) :
    ParticleSystem.emitterFromJson (ParticleSystem.emitterToJson emitter)
      = .ok emitter.reread := by
  simp [ParticleSystem.emitterFromJson, ParticleSystem.emitterToJson, JsonGet, Json.find,
    List.lookup, Json.getFloat, vec2_from_json_to_json, vec3_from_json_to_json,
    vec4_from_json_to_json, bind, Except.bind, pure, Except.pure, ParticleData.reread]

theorem ParticleData.reread_eq_self {F : Type} (emitter : ParticleData F)
    (ht : emitter.Type_ = ParticleType.Emitter) (hm : emitter.Metadata.x = emitter.Lifetime) :
    emitter.reread = emitter := by
  obtain ⟨t, p, v, c, l, ⟨mx, my, mz, mw⟩⟩ := emitter
  simp only at ht hm
  subst ht hm
  rfl

theorem ParticleSystem.pushEmitters_array {F : Type} (g m : Json F) (elements : List (Json F))
    (emitters : List (ParticleData F)) :
    ParticleSystem.pushEmitters
        (.object [("gravity", g), ("max_particles", m), ("emitters", .array elements)]) emitters
      = .ok (.object [("gravity", g), ("max_particles", m),
          ("emitters", .array (elements ++ emitters.map ParticleSystem.emitterToJson))]) := by
  induction emitters generalizing elements with
  | nil => simp [ParticleSystem.pushEmitters]
  | cons e es ih =>
      simp [ParticleSystem.pushEmitters, Json.find, List.lookup, Json.push_back, Json.set,
        Json.setMember, bind, Except.bind, ih]

theorem ParticleSystem.pushEmitters_null {F : Type} (g m : Json F)
    (emitters : List (ParticleData F)) :
    ParticleSystem.pushEmitters
        (.object [("gravity", g), ("max_particles", m), ("emitters", .null)]) emitters
      = .ok (.object [("gravity", g), ("max_particles", m),
          ("emitters", ParticleSystem.emittersToJson emitters)]) := by
  cases emitters with
  | nil => simp [ParticleSystem.pushEmitters, ParticleSystem.emittersToJson]
  | cons e es =>
      simp [ParticleSystem.pushEmitters, Json.find, List.lookup, Json.push_back, Json.set,
        Json.setMember, bind, Except.bind, ParticleSystem.pushEmitters_array,
        ParticleSystem.emittersToJson]

theorem ParticleSystem.toJson_eq {F : Type} (s : ParticleSystem F) :
    s.ToJson = .ok (.object
      [ ("gravity", s._gravity.to_json), ("max_particles", .number_unsigned s._maxParticles),
        ("emitters", ParticleSystem.emittersToJson s._emitters) ]) := by
  simp [ParticleSystem.ToJson, Json.set, Json.setMember, bind, Except.bind,
    ParticleSystem.pushEmitters_null]

theorem ParticleSystem.readEmitters_map {F : Type} [FloatOps F] (result : ParticleSystem F)
    (emitters : List (ParticleData F)) :
    ParticleSystem.readEmitters result (emitters.map ParticleSystem.emitterToJson)
      = .ok { result with _emitters := result._emitters ++ emitters.map ParticleData.reread } := by
  induction emitters generalizing result with
  | nil => simp [ParticleSystem.readEmitters]
  | cons e es ih =>
      simp [ParticleSystem.readEmitters, ParticleSystem.emitterFromJson_emitterToJson, bind,
        Except.bind, ih]

theorem ParticleSystem.fromJson_toJson {F : Type} [FloatOps F] (s : ParticleSystem F) :
    ∃ blob, s.ToJson = .ok blob
      ∧ ParticleSystem.FromJson blob
          = .ok { (ParticleSystem.ctor : ParticleSystem F) with
                  _gravity := s._gravity
                  _emitters := s._emitters.map ParticleData.reread } := by
  refine ⟨_, ParticleSystem.toJson_eq s, ?_⟩
  cases h : s._emitters with
  | nil =>
      simp [ParticleSystem.FromJson, JsonGet, Json.find, List.lookup, vec3_from_json_to_json,
        bind, Except.bind, ParticleSystem.ctor, ParticleSystem.emittersToJson]
  | cons e es =>
      have hr := ParticleSystem.readEmitters_map
        { (ParticleSystem.ctor : ParticleSystem F) with _gravity := s._gravity } (e :: es)
      simp only [List.map_cons] at hr
      simp [ParticleSystem.FromJson, JsonGet, Json.find, List.lookup, vec3_from_json_to_json,
        bind, Except.bind, ParticleSystem.ctor, ParticleSystem.emittersToJson] at hr ⊢
      exact hr

theorem ParticleSystem.emitterFromJson_type {F : Type} [FloatOps F] (data : Json F)
    (e : ParticleData F) (h : ParticleSystem.emitterFromJson data = .ok e) :
    e.Type_ = ParticleType.Emitter := by
  simp only [ParticleSystem.emitterFromJson, bind, Except.bind, pure, Except.pure] at h
  repeat' split at h
  all_goals (cases h <;> rfl)

theorem ParticleSystem.readEmitters_typed {F : Type} [FloatOps F] (elements : List (Json F))
    (result s : ParticleSystem F) (hr : result.EmittersTyped)
    (h : ParticleSystem.readEmitters result elements = .ok s) : s.EmittersTyped := by
  induction elements generalizing result with
  | nil =>
      simp only [ParticleSystem.readEmitters, Except.ok.injEq] at h
      subst h
      exact hr
  | cons data rest ih =>
      simp only [ParticleSystem.readEmitters, bind, Except.bind] at h
      split at h
      · cases h
      · rename_i e he
        refine ih _ ?_ h
        intro x hx
        simp only [List.mem_append, List.mem_singleton] at hx
        rcases hx with hx | hx
        · exact hr x hx
        · rw [hx]
          exact ParticleSystem.emitterFromJson_type data e he

theorem ParticleSystem.fromJson_typed {F : Type} [FloatOps F] (blob : Json F)
    (s : ParticleSystem F) (h : ParticleSystem.FromJson blob = .ok s) : s.EmittersTyped := by
  simp only [ParticleSystem.FromJson, bind, Except.bind] at h
  repeat' split at h
  all_goals first
    | (refine ParticleSystem.readEmitters_typed _ _ s ?_ h
       intro x hx
       simp [ParticleSystem.ctor] at hx)
    | (cases h <;> (intro x hx; simp [ParticleSystem.ctor] at hx))

theorem EmitterWidgets.apply_type {F : Type} [FloatOps F] (w : EmitterWidgets F)
    (emitter : ParticleData F) : (w.apply emitter).Type_ = emitter.Type_ := by
  unfold EmitterWidgets.apply
  cases w.position <;> cases w.velocity <;> cases w.color <;> cases w.spawnRate <;>
    cases w.size <;> cases w.lifeRange <;> rfl

theorem ParticleSystem.editEmitters_typed {F : Type} [FloatOps F]
    (emitters : List (ParticleData F)) (widgets : List (EmitterWidgets F))
    (h : ∀ e ∈ emitters, e.Type_ = ParticleType.Emitter) :
    ∀ e ∈ ParticleSystem.editEmitters emitters widgets, e.Type_ = ParticleType.Emitter := by
  induction emitters generalizing widgets with
  | nil => simp [ParticleSystem.editEmitters]
  | cons x xs ih =>
      have hx : x.Type_ = ParticleType.Emitter := h x (List.mem_cons_self x xs)
      have hxs : ∀ e ∈ xs, e.Type_ = ParticleType.Emitter :=
        fun e he => h e (List.mem_cons_of_mem x he)
      cases widgets with
      | nil => simpa [ParticleSystem.editEmitters] using h
      | cons w ws =>
          simp only [ParticleSystem.editEmitters]
          split
          · split
            · exact ih ws hxs
            · intro e he
              rcases List.mem_cons.mp he with he | he
              · rw [he, EmitterWidgets.apply_type, hx]
              · exact ih ws hxs e he
          · intro e he
            rcases List.mem_cons.mp he with he | he
            · rw [he, hx]
            · exact ih ws hxs e he

theorem ParticleSystem.step_typed {F : Type} [FloatOps F] (s s1 : ParticleSystem F) (op : Op F)
    (hs : s.EmittersTyped) (h : s.step op = .ok s1) : s1.EmittersTyped := by
  cases op with
  | Update q =>
      simp only [ParticleSystem.step, Except.ok.injEq] at h
      subst h
      exact hs
  | Render =>
      simp only [ParticleSystem.step, Except.ok.injEq] at h
      subst h
      exact hs
  | AddEmitter position direction emitRate color size =>
      simp only [ParticleSystem.step, ParticleSystem.AddEmitter] at h
      split at h
      · cases h
      · simp only [Except.ok.injEq] at h
        subst h
        intro e he
        simp only [List.mem_append, List.mem_singleton] at he
        rcases he with he | he
        · exact hs e he
        · rw [he]
  | RenderImGui isPlaying widgets addEmitter =>
      simp only [ParticleSystem.step, Except.ok.injEq] at h
      subst h
      have hed := ParticleSystem.editEmitters_typed s._emitters widgets hs
      simp only [ParticleSystem.RenderImGui]
      split
      · split
        · intro e he
          simp only [List.mem_append, List.mem_singleton] at he
          rcases he with he | he
          · exact hed e he
          · rw [he]
        · exact hed
      · exact hs

theorem ParticleSystem.reachable_typed {F : Type} [FloatOps F] (s : ParticleSystem F)
    (h : s.Reachable) : s.EmittersTyped := by
  induction h with
  | ctor =>
      intro e he
      simp [ParticleSystem.ctor] at he
  | fromJson blob s hb => exact ParticleSystem.fromJson_typed blob s hb
  | step s s1 op _ hstep ih => exact ParticleSystem.step_typed s s1 op ih hstep

theorem ParticleSystem.oneEmitter_reachable : ParticleSystem.oneEmitter.Reachable :=
  .step ParticleSystem.ctor _ (.AddEmitter ⟨1, 2, 3⟩ ⟨0, -1, 10⟩ 1 ⟨0, 1, 0, 1⟩ 7) .ctor rfl

/-- C5. Emitter round trip through JSON: for a particle system a program can
hold whose emitters all have `Metadata.x` equal to `Lifetime`, `ToJson`
succeeds and `FromJson` of its result succeeds with the same list of emitters
(the same number, in the same order, each equal in `Type`, `Position`,
`Velocity`, `Color`, `Lifetime` and `Metadata`); with no emitter the member
`emitters` written is null and the list read back is empty. -/
theorem ParticleSystem.emitters_round_trip {F : Type} [FloatOps F] (s : ParticleSystem F)
    (hr : s.Reachable) (hm : ∀ e ∈ s._emitters, e.Metadata.x = e.Lifetime) :
    ∃ blob s1, s.ToJson = .ok blob
      ∧ ParticleSystem.FromJson blob = .ok s1
      ∧ s1._emitters = s._emitters
      ∧ s1._emitters.length = s._emitters.length
      ∧ (∀ i : Nat, s1._emitters[i]? = s._emitters[i]?)
      ∧ (s._emitters = [] → blob.find "emitters" = some .null ∧ s1._emitters = []) := by
  obtain ⟨blob, hb, hf⟩ := ParticleSystem.fromJson_toJson s
  have ht := ParticleSystem.reachable_typed s hr
  have hmap : s._emitters.map ParticleData.reread = s._emitters := by
    conv_rhs => rw [← List.map_id s._emitters]
    apply List.map_congr_left
    intro e he
    exact ParticleData.reread_eq_self e (ht e he) (hm e he)
  rw [hmap] at hf
  refine ⟨blob, _, hb, hf, rfl, rfl, fun _ => rfl, ?_⟩
  intro hnil
  refine ⟨?_, hnil⟩
  have hb2 := ParticleSystem.toJson_eq s
  rw [hb, hnil] at hb2
  simp only [Except.ok.injEq] at hb2
  rw [hb2]
  simp [Json.find, List.lookup, ParticleSystem.emittersToJson]

theorem ParticleSystem.emitters_round_trip_witness :
    ParticleSystem.oneEmitter.Reachable
      ∧ (∀ e ∈ ParticleSystem.oneEmitter._emitters, e.Metadata.x = e.Lifetime)
      ∧ ∃ blob s1, ParticleSystem.oneEmitter.ToJson = .ok blob
          ∧ ParticleSystem.FromJson blob = .ok s1
          ∧ s1._emitters = ParticleSystem.oneEmitter._emitters :=
  ⟨ParticleSystem.oneEmitter_reachable, by decide,
    match ParticleSystem.emitters_round_trip ParticleSystem.oneEmitter
        ParticleSystem.oneEmitter_reachable (by decide) with
    | ⟨blob, s1, h1, h2, h3, _⟩ => ⟨blob, s1, h1, h2, h3⟩⟩

/-- C6, evaluated on the code: `ToJson` writes `_maxParticles` under the key
`max_particles` and `FromJson` reads the key `max_particled`, so the round
trip of any system keeps `_gravity` but yields the constructor's
`_maxParticles`, 1000; the system with `_maxParticles = 500`, which `FromJson`
itself produces from a `max_particled` member, comes back with 1000. -/
theorem ParticleSystem.maxParticles_round_trip_eval {F : Type} [FloatOps F] :
    (∀ s : ParticleSystem F, ∃ blob s1, s.ToJson = .ok blob
        ∧ blob.find "max_particles" = some (.number_unsigned s._maxParticles)
        ∧ ParticleSystem.FromJson blob = .ok s1
        ∧ s1._gravity = s._gravity
        ∧ s1._maxParticles = 1000)
      ∧ ParticleSystem.FromJson (.object [("max_particled", .number_unsigned 500)])
          = .ok { (ParticleSystem.ctor : ParticleSystem F) with _maxParticles := 500 }
      ∧ ∃ blob s1,
          ({ (ParticleSystem.ctor : ParticleSystem F) with _maxParticles := 500 }).ToJson = .ok blob
            ∧ ParticleSystem.FromJson blob = .ok s1
            ∧ s1._maxParticles = 1000 := by
  refine ⟨?_, ?_, ?_⟩
  · intro s
    obtain ⟨blob, hb, hf⟩ := ParticleSystem.fromJson_toJson s
    refine ⟨blob, _, hb, ?_, hf, rfl, rfl⟩
    have hb2 := ParticleSystem.toJson_eq s
    rw [hb] at hb2
    simp only [Except.ok.injEq] at hb2
    rw [hb2]
    simp [Json.find, List.lookup]
  · simp [ParticleSystem.FromJson, JsonGet, Json.find, List.lookup, Json.getUInt32, bind,
      Except.bind, ParticleSystem.ctor]
  · obtain ⟨blob, hb, hf⟩ := ParticleSystem.fromJson_toJson
      ({ (ParticleSystem.ctor : ParticleSystem F) with _maxParticles := 500 })
    exact ⟨blob, _, hb, hf, rfl⟩

/-! ## Shader data types: component counts and type codes -/

/-- C11. Component count of the non-matrix types:
`ShaderDataTypeComponentCount` gives `n` for a Float, Int, Uint, Double or Bool
type with `n` components, 1 for `Uint64` and 1 for every texture type (nothing
is said here of the matrices and of `None`). -/
theorem ShaderDataTypeComponentCount_non_matrix (t : ShaderDataType) :
    match t.shape with
    | .invalid => True
    | .floats n => ShaderDataTypeComponentCount t.val = n
    | .ints n => ShaderDataTypeComponentCount t.val = n
    | .uints n => ShaderDataTypeComponentCount t.val = n
    | .uint64 => ShaderDataTypeComponentCount t.val = 1
    | .doubles n => ShaderDataTypeComponentCount t.val = n
    | .bools n => ShaderDataTypeComponentCount t.val = n
    | .mat _ _ => True
    | .dmat _ _ => True
    | .texture => ShaderDataTypeComponentCount t.val = 1 := by
  cases t <;> simp only [ShaderDataType.shape] <;> decide

/-- C12. Type code of every enumerator: `GetShaderDataTypeCode` gives `Float`
for the Float types, `Matrix` for every `Mat*`, `Int` for the Int types, `Uint`
for the Uint types and `Uint64`, `Double` for the Double types, `MatrixD` for
every `Dmat*`, `Bool` for the Bool types, `Texture` for every texture type and
`None` for `None`; the result is always one of the nine declared
`ShaderDataTypecode` values. -/
theorem GetShaderDataTypeCode_spec (t : ShaderDataType) :
    (match t.shape with
      | .invalid => GetShaderDataTypeCode t.val = ShaderDataTypecode.None
      | .floats _ => GetShaderDataTypeCode t.val = ShaderDataTypecode.Float
      | .ints _ => GetShaderDataTypeCode t.val = ShaderDataTypecode.Int
      | .uints _ => GetShaderDataTypeCode t.val = ShaderDataTypecode.Uint
      | .uint64 => GetShaderDataTypeCode t.val = ShaderDataTypecode.Uint
      | .doubles _ => GetShaderDataTypeCode t.val = ShaderDataTypecode.Double
      | .bools _ => GetShaderDataTypeCode t.val = ShaderDataTypecode.Bool
      | .mat _ _ => GetShaderDataTypeCode t.val = ShaderDataTypecode.Matrix
      | .dmat _ _ => GetShaderDataTypeCode t.val = ShaderDataTypecode.MatrixD
      | .texture => GetShaderDataTypeCode t.val = ShaderDataTypecode.Texture)
      ∧ GetShaderDataTypeCode t.val ∈
          [ ShaderDataTypecode.None, ShaderDataTypecode.Float, ShaderDataTypecode.Matrix,
            ShaderDataTypecode.Int, ShaderDataTypecode.Uint, ShaderDataTypecode.Double,
            ShaderDataTypecode.MatrixD, ShaderDataTypecode.Bool, ShaderDataTypecode.Texture ] := by
  cases t <;> simp only [ShaderDataType.shape] <;> decide

/-! ## Initial particle data -/

theorem ParticleSystem.initialData_fold {F : Type} (emitters : List (ParticleData F))
    (m k : Nat) (hk : k ≤ emitters.length) :
    (List.range k).foldl
        (fun data ix =>
          match emitters[ix]? with
          | some e => data.set ix (some e)
          | none => data)
        (List.replicate (m + emitters.length) none)
      = (emitters.take k).map some ++ List.replicate (m + emitters.length - k) none := by
  induction k with
  | zero => simp
  | succ k ih =>
      have hk1 : k < emitters.length := hk
      rw [List.range_succ, List.foldl_append, ih (Nat.le_of_lt hk1)]
      simp only [List.foldl_cons, List.foldl_nil, List.getElem?_eq_getElem hk1]
      have hlen : ((emitters.take k).map some).length = k := by
        simp [List.length_take, Nat.min_eq_left (Nat.le_of_lt hk1)]
      have hrep : List.replicate (m + emitters.length - k) (none : Option (ParticleData F))
          = none :: List.replicate (m + emitters.length - (k + 1)) none := by
        have : m + emitters.length - k = (m + emitters.length - (k + 1)) + 1 := by omega
        rw [this, List.replicate_succ]
      rw [hrep, List.set_append_right _ _ (by omega), hlen, Nat.sub_self, List.set_cons_zero,
        List.take_succ, List.getElem?_eq_getElem hk1]
      simp only [Option.toList, List.map_append, List.map_cons, List.map_nil, List.append_assoc,
        List.singleton_append]

theorem ParticleSystem.initialData_eq {F : Type} (s : ParticleSystem F) :
    s.initialData = s._emitters.map some ++ List.replicate s._maxParticles none := by
  unfold ParticleSystem.initialData
  rw [ParticleSystem.initialData_fold s._emitters s._maxParticles s._emitters.length (le_refl _)]
  simp

/-- C15. Initial particle data: the first `Update` of a system with `n`
emitters uploads the same array to particle buffer 0 and to particle buffer 1
and nowhere else; the array has `_maxParticles + n` entries, entries `0..n-1`
are the emitters in their order in `_emitters`, every other entry is still
zeroed; the pass issues one draw, `glDrawArrays(GL_POINTS, 0, n)`. A pass on an
initialized system uploads nothing and issues one draw,
`glDrawTransformFeedback` on the feedback object of its vertex buffer index,
which for the pass after the first is the one the first pass captured into. -/
theorem ParticleSystem.first_update_upload {F : Type} (s : ParticleSystem F) (q : Nat)
    (h : s._hasInit = false) :
    bufferUploadsFrom none (s.Update q).2
        = [ (some 0, s._emitters.map some ++ List.replicate s._maxParticles none),
            (some 1, s._emitters.map some ++ List.replicate s._maxParticles none) ]
      ∧ (s._emitters.map some ++ List.replicate s._maxParticles none).length
          = s._maxParticles + s._emitters.length
      ∧ (∀ i (hi : i < s._emitters.length),
          (s._emitters.map some ++ List.replicate s._maxParticles none)[i]?
            = some (some s._emitters[i]))
      ∧ (∀ i, s._emitters.length ≤ i → i < s._maxParticles + s._emitters.length →
          (s._emitters.map some ++ List.replicate s._maxParticles none)[i]? = some none)
      ∧ (s.Update q).2.filter GlCall.isDraw = [.DrawArrays 0 s._emitters.length]
      ∧ (∀ q2, ((s.Update q).1.Update q2).2.filter GlCall.isDraw
          = [.DrawTransformFeedback s._currentFeedbackBuffer])
      ∧ (∀ (s2 : ParticleSystem F) (q2 : Nat), s2._hasInit = true →
          bufferUploadsFrom none (s2.Update q2).2 = []
            ∧ (s2.Update q2).2.filter GlCall.isDraw
                = [.DrawTransformFeedback s2._currentVertexBuffer]) := by
  refine ⟨?_, ?_, ?_, ?_, ?_, ?_, ?_⟩
  · simp [ParticleSystem.Update, ParticleSystem.initCalls, ParticleSystem.initBufferCalls,
      ParticleSystem.simulationCalls, bufferUploadsFrom, h, ParticleSystem.initialData_eq]
  · simp [Nat.add_comm]
  · intro i hi
    rw [List.getElem?_append_left (by simpa using hi)]
    simp [List.getElem?_eq_getElem hi]
  · intro i h1 h2
    rw [List.getElem?_append_right (by simpa using h1)]
    simp only [List.length_map]
    rw [List.getElem?_replicate]
    simp only [ite_eq_left_iff, not_lt, reduceCtorEq, imp_false, not_le]
    omega
  · simp [ParticleSystem.Update, ParticleSystem.initCalls, ParticleSystem.initBufferCalls,
      ParticleSystem.simulationCalls, GlCall.isDraw, h]
  · intro q2
    simp [ParticleSystem.Update, ParticleSystem.simulationCalls, GlCall.isDraw]
  · intro s2 q2 h2
    simp [ParticleSystem.Update, ParticleSystem.simulationCalls, GlCall.isDraw,
      bufferUploadsFrom, h2]

theorem ParticleSystem.first_update_upload_witness :
    ParticleSystem.twoEmitters._hasInit = false
      ∧ bufferUploadsFrom none (ParticleSystem.twoEmitters.Update 2).2
          = [ (some 0, ParticleSystem.twoEmitters._emitters.map some ++ List.replicate 1000 none),
              (some 1, ParticleSystem.twoEmitters._emitters.map some ++ List.replicate 1000 none) ]
      ∧ (ParticleSystem.twoEmitters.Update 2).2.filter GlCall.isDraw = [.DrawArrays 0 2] :=
  ⟨rfl,
    (ParticleSystem.first_update_upload ParticleSystem.twoEmitters 2 rfl).1,
    (ParticleSystem.first_update_upload ParticleSystem.twoEmitters 2 rfl).2.2.2.2.1⟩

/-! ## Layer dispatch -/

theorem Application.callLayers_eq (flag : Nat) (callback : LayerCallback)
    (l : List (Nat × ApplicationLayer)) :
    Application.callLayers flag callback l
      = (l.filter (fun p => p.2.handles flag)).map (fun p => (p.1, callback)) := by
  induction l with
  | nil => rfl
  | cons p rest ih =>
      obtain ⟨ix, layer⟩ := p
      simp only [Application.callLayers, List.filter_cons]
      split <;> simp [ih]

theorem Application.callLayers_map_fst (flag : Nat) (callback : LayerCallback)
    (l : List (Nat × ApplicationLayer)) :
    (Application.callLayers flag callback l).map Prod.fst
      = (l.filter (fun p => p.2.handles flag)).map Prod.fst := by
  rw [Application.callLayers_eq, List.map_map]
  rfl

theorem Application.mem_callLayers (flag : Nat) (callback : LayerCallback)
    (l : List (Nat × ApplicationLayer)) (ix : Nat) :
    (ix, callback) ∈ Application.callLayers flag callback l
      ↔ ∃ layer, (ix, layer) ∈ l ∧ layer.Enabled = true ∧ layer.Overrides &&& flag ≠ 0 := by
  rw [Application.callLayers_eq]
  simp only [List.mem_map, List.mem_filter, Prod.mk.injEq, and_true, Prod.exists,
    ApplicationLayer.handles, Bool.and_eq_true, bne_iff_ne, ne_eq, exists_eq_right_right]
  constructor
  · rintro ⟨a, layer, ⟨hmem, he, hne⟩, rfl⟩
    exact ⟨layer, hmem, he, hne⟩
  · rintro ⟨layer, hmem, he, hne⟩
    exact ⟨ix, layer, ⟨hmem, he, hne⟩, rfl⟩

theorem Application.callLayers_callback (flag : Nat) (callback : LayerCallback)
    (l : List (Nat × ApplicationLayer)) :
    ∀ c ∈ Application.callLayers flag callback l, c.2 = callback := by
  rw [Application.callLayers_eq]
  intro c hc
  simp only [List.mem_map] at hc
  obtain ⟨p, _, rfl⟩ := hc
  rfl

theorem Application.dispatchedInOrder_enum (flag : Nat) (callback : LayerCallback)
    (_layers : List ApplicationLayer) :
    Application.DispatchedInOrder flag callback _layers
      (Application.callLayers flag callback _layers.enum) := by
  refine ⟨?_, Application.callLayers_callback flag callback _, ?_⟩
  · rw [Application.callLayers_map_fst]
    have hsub : ((_layers.enum.filter (fun p => p.2.handles flag)).map Prod.fst).Sublist
        (_layers.enum.map Prod.fst) := (List.filter_sublist _).map _
    rw [List.enum_map_fst] at hsub
    exact (List.pairwise_lt_range _).sublist hsub
  · intro ix
    rw [Application.mem_callLayers]
    simp only [List.mk_mem_enum_iff_getElem?]

theorem Application.dispatchedInReverse_enum (flag : Nat) (callback : LayerCallback)
    (_layers : List ApplicationLayer) :
    Application.DispatchedInReverse flag callback _layers
      (Application.callLayers flag callback _layers.enum.reverse) := by
  refine ⟨?_, Application.callLayers_callback flag callback _, ?_⟩
  · rw [Application.callLayers_map_fst]
    have hsub : ((_layers.enum.reverse.filter (fun p => p.2.handles flag)).map Prod.fst).Sublist
        (_layers.enum.reverse.map Prod.fst) := (List.filter_sublist _).map _
    rw [List.map_reverse, List.enum_map_fst] at hsub
    have hrev : (List.range _layers.length).reverse.Pairwise (· > ·) :=
      List.pairwise_reverse.mpr (List.pairwise_lt_range _)
    exact hrev.sublist hsub
  · intro ix
    rw [Application.mem_callLayers]
    simp only [List.mem_reverse, List.mk_mem_enum_iff_getElem?]

/-- C13. Layer dispatch: for every list of layers and whatever the flag
values, each of `_Load`, `_Update`, `_LateUpdate`, `_PreRender` and
`_RenderScene` calls its callback (`OnAppLoad`, `OnUpdate`, `OnLateUpdate`,
`OnPreRender`, `OnRender`) on the layers in registration order, once on each
layer that is enabled and whose `Overrides` has the callback's flag, and on no
other layer. -/
theorem Application.layer_dispatch {K : Type} [LinearOrderedField K] (flags : AppLayerFunctions)
    (_layers : List ApplicationLayer) (g : Game K) (inp : FrameInput K) :
    Application.DispatchedInOrder flags.OnAppLoad .OnAppLoad _layers
        (Application._Load flags _layers)
      ∧ Application.DispatchedInOrder flags.OnUpdate .OnUpdate _layers
          (Application._Update flags _layers g inp).1
      ∧ Application.DispatchedInOrder flags.OnLateUpdate .OnLateUpdate _layers
          (Application._LateUpdate flags _layers)
      ∧ Application.DispatchedInOrder flags.OnPreRender .OnPreRender _layers
          (Application._PreRender flags _layers)
      ∧ Application.DispatchedInOrder flags.OnRender .OnRender _layers
          (Application._RenderScene flags _layers) :=
  ⟨Application.dispatchedInOrder_enum _ _ _, Application.dispatchedInOrder_enum _ _ _,
    Application.dispatchedInOrder_enum _ _ _, Application.dispatchedInOrder_enum _ _ _,
    Application.dispatchedInOrder_enum _ _ _⟩

/-- C14, evaluated on the code: `_PostRender` walks `_layers` from `begin()`
to `end()`, so it calls `OnPostRender` in registration order, the first
registered layer first, for every list of layers; on the sample layers the
calls go to positions 0 then 2. The sibling `_Unload`, which iterates from
`crbegin()`, calls in reverse order: positions 2 then 0. -/
theorem Application.postRender_order :
    (∀ (flags : AppLayerFunctions) (_layers : List ApplicationLayer),
        Application.DispatchedInOrder flags.OnPostRender .OnPostRender _layers
          (Application._PostRender flags _layers))
      ∧ Application._PostRender Application.sampleFlags Application.sampleLayers
          = [(0, .OnPostRender), (2, .OnPostRender)]
      ∧ (∀ (flags : AppLayerFunctions) (_layers : List ApplicationLayer),
          Application.DispatchedInReverse flags.OnAppUnload .OnAppUnload _layers
            (Application._Unload flags _layers))
      ∧ Application._Unload Application.sampleFlags Application.sampleLayers
          = [(2, .OnAppUnload), (0, .OnAppUnload)] :=
  ⟨fun _ _ => Application.dispatchedInOrder_enum _ _ _, by decide,
    fun _ _ => Application.dispatchedInReverse_enum _ _ _, by decide⟩

/-! ## The jump arc -/

theorem Application.jumpHeight_eq {K : Type} [LinearOrderedField K] (x : K) :
    Application.jumpHeight x = -4 * (x - 1) ^ 2 + 5 := by
  unfold Application.jumpHeight
  ring

theorem Application.jumpCode_height {K : Type} [LinearOrderedField K] (g : Game K)
    (inp : FrameInput K) :
    (Application.jumpCode g inp).1.x = (Application.jumpCode g inp).1.JTime * 8
      ∧ (Application.jumpCode g inp).1.jumpheight
          = Application.jumpHeight (Application.jumpCode g inp).1.x := by
  unfold Application.jumpCode
  simp only
  split_ifs <;> exact ⟨rfl, rfl⟩

/-- C16. The jump arc: after the jump code of `_Update` has run, `x` is
`8 * JTime` and `jumpheight` is `-4 * (x - 1)^2 + 5`; in exact arithmetic this
height is at most 5 for every `x`, is 5 exactly when `x = 1`, is 1 (the z of
the ladybug's starting position) at `x = 0` and at `x = 2`, is strictly
increasing up to `x = 1` and strictly decreasing from `x = 1` on. -/
theorem Application.jump_arc {K : Type} [LinearOrderedField K] :
    (∀ (g : Game K) (inp : FrameInput K),
        (Application.jumpCode g inp).1.x = 8 * (Application.jumpCode g inp).1.JTime
          ∧ (Application.jumpCode g inp).1.jumpheight
              = -4 * ((Application.jumpCode g inp).1.x - 1) ^ 2 + 5)
      ∧ (∀ x : K, Application.jumpHeight x = -4 * (x - 1) ^ 2 + 5)
      ∧ (∀ x : K, Application.jumpHeight x ≤ 5)
      ∧ (∀ x : K, Application.jumpHeight x = 5 ↔ x = 1)
      ∧ Application.jumpHeight (0 : K) = (DefaultSceneLayer.ladybugStart : Vec3 K).z
      ∧ (DefaultSceneLayer.ladybugStart : Vec3 K).z = 1
      ∧ Application.jumpHeight (2 : K) = 1
      ∧ (∀ a b : K, a < b → b ≤ 1 → Application.jumpHeight a < Application.jumpHeight b)
      ∧ (∀ a b : K, 1 ≤ a → a < b → Application.jumpHeight b < Application.jumpHeight a) := by
  refine ⟨?_, Application.jumpHeight_eq, ?_, ?_, ?_, rfl, ?_, ?_, ?_⟩
  · intro g inp
    obtain ⟨hx, hh⟩ := Application.jumpCode_height g inp
    rw [hh, Application.jumpHeight_eq]
    exact ⟨by rw [hx, mul_comm], rfl⟩
  · intro x
    rw [Application.jumpHeight_eq]
    nlinarith [sq_nonneg (x - 1)]
  · intro x
    rw [Application.jumpHeight_eq]
    constructor
    · intro h
      have h2 : (x - 1) ^ 2 = 0 := by linarith
      have h3 : x - 1 = 0 := by simpa using h2
      linarith
    · intro h
      rw [h]
      norm_num
  · rw [Application.jumpHeight_eq]
    simp only [DefaultSceneLayer.ladybugStart]
    norm_num
  · rw [Application.jumpHeight_eq]
    norm_num
  · intro a b hab hb
    rw [Application.jumpHeight_eq, Application.jumpHeight_eq]
    nlinarith [mul_pos (sub_pos.mpr hab) (sub_pos.mpr hab),
      mul_nonneg (sub_nonneg.mpr hb) (le_of_lt (sub_pos.mpr hab))]
  · intro a b ha hab
    rw [Application.jumpHeight_eq, Application.jumpHeight_eq]
    nlinarith [mul_pos (sub_pos.mpr hab) (sub_pos.mpr hab),
      mul_nonneg (sub_nonneg.mpr ha) (le_of_lt (sub_pos.mpr hab))]

/-! ## The game script on a scene without `deadbug` -/

theorem Application.jumpCode_keeps {K : Type} [LinearOrderedField K] (g : Game K)
    (inp : FrameInput K) :
    (Application.jumpCode g inp).1.deadbug = g.deadbug
      ∧ (Application.jumpCode g inp).1.shadowLight = g.shadowLight := by
  unfold Application.jumpCode
  simp only
  split_ifs <;> exact ⟨rfl, rfl⟩

theorem Application.flyCode_keeps {K : Type} [LinearOrderedField K] (g : Game K)
    (inp : FrameInput K) :
    (Application.flyCode g inp).deadbug = g.deadbug
      ∧ (Application.flyCode g inp).shadowLight = g.shadowLight := by
  unfold Application.flyCode
  simp only
  split_ifs <;> exact ⟨rfl, rfl⟩

theorem Application.slideCode_keeps {K : Type} [LinearOrderedField K] (g : Game K)
    (inp : FrameInput K) :
    (Application.slideCode g inp).deadbug = g.deadbug
      ∧ (Application.slideCode g inp).shadowLight = g.shadowLight := by
  unfold Application.slideCode
  split_ifs <;> exact ⟨rfl, rfl⟩

theorem Application.moveCode_keeps {K : Type} [LinearOrderedField K] (g : Game K)
    (inp : FrameInput K) :
    (Application.moveCode g inp).deadbug = g.deadbug
      ∧ (Application.moveCode g inp).shadowLight = g.shadowLight := by
  unfold Application.moveCode
  simp only
  split_ifs <;> exact ⟨rfl, rfl⟩

theorem Application.followToggle_keeps {K : Type} (g : Game K) (inp : FrameInput K) :
    (Application.followToggle g inp).deadbug = g.deadbug
      ∧ (Application.followToggle g inp).shadowLight = g.shadowLight := by
  unfold Application.followToggle
  split_ifs <;> exact ⟨rfl, rfl⟩

theorem Application.winCode_keeps {K : Type} [LinearOrderedField K] (g : Game K) :
    (Application.winCode g).deadbug = g.deadbug
      ∧ (Application.winCode g).shadowLight = g.shadowLight := by
  unfold Application.winCode
  simp only
  split_ifs <;> exact ⟨rfl, rfl⟩

theorem Application.lightsCode_keeps {K : Type} [LinearOrderedField K] (g g1 : Game K)
    (inp : FrameInput K)
    (h : Application.lightsCode g inp = .ok g1 ∨ Application.lightsCode g inp = .error g1) :
    g1.deadbug = g.deadbug ∧ g1.shadowLight = g.shadowLight := by
  unfold Application.lightsCode at h
  split at h
  · rcases h with h | h <;> cases h
    exact ⟨rfl, rfl⟩
  · split at h <;> rcases h with h | h <;> cases h <;> exact ⟨rfl, rfl⟩

theorem Application.followCamera_keeps {K : Type} [LinearOrderedField K] (g g1 : Game K)
    (h : Application.followCamera g = .ok g1 ∨ Application.followCamera g = .error g1) :
    g1.deadbug = g.deadbug ∧ g1.shadowLight = g.shadowLight := by
  unfold Application.followCamera at h
  split at h
  · split at h <;> rcases h with h | h <;> cases h <;> exact ⟨rfl, rfl⟩
  · rcases h with h | h <;> cases h
    exact ⟨rfl, rfl⟩

theorem Application.collisionReset_keeps {K : Type} [LinearOrderedField K] (g g1 : Game K)
    (hd : g.deadbug = none)
    (h : Application.collisionReset g = .ok g1 ∨ Application.collisionReset g = .error g1) :
    g1.deadbug = none ∧ g1.shadowLight = g.shadowLight := by
  unfold Application.collisionReset at h
  simp only [hd] at h
  split at h <;> rcases h with h | h <;> cases h <;> exact ⟨by first | rfl | exact hd, rfl⟩

theorem Application.particlesFollow_faults {K : Type} (g : Game K) (hd : g.deadbug = none) :
    Application.particlesFollow g = .error g := by
  unfold Application.particlesFollow
  rw [hd]
  cases g.particles <;> rfl

theorem Application.afterJump_faults {K : Type} [LinearOrderedField K] (g : Game K)
    (inp : FrameInput K) (hd : g.deadbug = none) :
    ∃ gf, Application.afterJump g inp = .error gf
      ∧ gf.deadbug = none ∧ gf.shadowLight = g.shadowLight := by
  obtain ⟨f1, f2⟩ := Application.flyCode_keeps g inp
  obtain ⟨s1, s2⟩ := Application.slideCode_keeps (Application.flyCode g inp) inp
  unfold Application.afterJump
  simp only [bind, Except.bind, pure, Except.pure]
  cases hl : Application.lightsCode (Application.slideCode (Application.flyCode g inp) inp) inp with
  | error e =>
      obtain ⟨l1, l2⟩ := Application.lightsCode_keeps _ e inp (Or.inr hl)
      exact ⟨e, rfl, by rw [l1, s1, f1, hd], by rw [l2, s2, f2]⟩
  | ok g3 =>
      obtain ⟨l1, l2⟩ := Application.lightsCode_keeps _ g3 inp (Or.inl hl)
      obtain ⟨m1, m2⟩ := Application.moveCode_keeps g3 inp
      obtain ⟨t1, t2⟩ := Application.followToggle_keeps (Application.moveCode g3 inp) inp
      have hd5 : (Application.followToggle (Application.moveCode g3 inp) inp).deadbug = none := by
        rw [t1, m1, l1, s1, f1, hd]
      have hs5 : (Application.followToggle (Application.moveCode g3 inp) inp).shadowLight
          = g.shadowLight := by
        rw [t2, m2, l2, s2, f2]
      simp only
      cases hc : Application.followCamera
          (Application.followToggle (Application.moveCode g3 inp) inp) with
      | error e =>
          obtain ⟨c1, c2⟩ := Application.followCamera_keeps _ e (Or.inr hc)
          exact ⟨e, rfl, by rw [c1, hd5], by rw [c2, hs5]⟩
      | ok g6 =>
          obtain ⟨c1, c2⟩ := Application.followCamera_keeps _ g6 (Or.inl hc)
          obtain ⟨w1, w2⟩ := Application.winCode_keeps g6
          have hd7 : (Application.winCode g6).deadbug = none := by rw [w1, c1, hd5]
          simp only
          cases hr : Application.collisionReset (Application.winCode g6) with
          | error e =>
              obtain ⟨r1, r2⟩ := Application.collisionReset_keeps _ e hd7 (Or.inr hr)
              exact ⟨e, rfl, r1, by rw [r2, w2, c2, hs5]⟩
          | ok g8 =>
              obtain ⟨r1, r2⟩ := Application.collisionReset_keeps _ g8 hd7 (Or.inl hr)
              simp only [Application.particlesFollow_faults g8 r1]
              exact ⟨g8, rfl, r1, by rw [r2, w2, c2, hs5]⟩

theorem Application.gameLoop_faults {K : Type} [LinearOrderedField K] (g : Game K)
    (inp : FrameInput K) (hd : g.deadbug = none) :
    ∃ gf, (Application.gameLoop g inp).1 = .error gf
      ∧ gf.deadbug = none ∧ gf.shadowLight = g.shadowLight := by
  obtain ⟨j1, j2⟩ := Application.jumpCode_keeps g inp
  obtain ⟨gf, h1, h2, h3⟩ :=
    Application.afterJump_faults (Application.jumpCode g inp).1 inp (by rw [j1, hd])
  exact ⟨gf, h1, h2, by rw [h3, j2]⟩

theorem Application.setLights_start :
    Application.setLights false [] 0
        (List.replicate 11 (some (250 : ℚ)) ++ List.replicate 11 (some 500))
      = .ok (List.replicate 11 (some 250) ++ List.replicate 11 (some 500)) := by
  rfl

/-- The z positions the jump code would set in a scene that also had an object
named `deadbug`, where the frames run to their end: 0, 1, 3.56 and then
-14.36. The height computed at time 1 is negative and ends the jump, stays in
`jumpheight` and is the value written when the next jump starts. -/
theorem Application.jumpWrites_with_deadbug :
    Application.jumpWrites Application.startGameWithDeadbug Application.sampleFrames
      = [0, 1, 89 / 25, -359 / 25] := by
  norm_num [Application.jumpWrites, Application.sampleFrames, Application.frameAt,
    Application.startGameWithDeadbug, Application.startGame, Application.gameLoop,
    Application.afterJump, Application.jumpCode, Application.flyCode, Application.slideCode,
    Application.lightsCode, Application.setLights_start, Application.moveCode,
    Application.followToggle, Application.followCamera, Application.winCode,
    Application.collisionReset, Application.particlesFollow, Application.shadowFollow,
    Application.collisionTests, Application.hitsMushroom, Application.inStrip,
    Application.jumpHeight, GameObject.SetPostion, DefaultSceneLayer.ladybugStart,
    bind, Except.bind, pure, Except.pure]

/-! ## Camera following -/

theorem Application.followCamera_places {K : Type} [LinearOrderedField K] (g : Game K)
    (camera : GameObject K) (hf : g.followplayer = true) (hc : g.mainCamera = some camera) :
    ∃ g1, Application.followCamera g = .ok g1
      ∧ g1.mainCamera
          = some ⟨⟨g.ladybug.position.x - 5, 11.480, 6.290⟩, ⟨84, 0, -180⟩, camera.scale⟩
      ∧ g1.ladybug = g.ladybug := by
  unfold Application.followCamera
  rw [if_pos hf, hc]
  exact ⟨_, rfl, rfl, rfl⟩

/-- C18, evaluated on the code: on a scene that has no object named
`deadbug`, no `_Update` reaches its end: the script stops at a null pointer
before line 472 and leaves the Shadow Light as it was. In the first frame of
the scene `_CreateScene` builds, with `followplayer` true, the ladybug moves
to x = 5.6, the follow code puts the Main Camera at (0.6, 11.480, 6.290) with
rotation (84, 0, -180), and the script stops at line 470 with the Shadow
Light still at (3, 3, 5), not at the camera's position plus (-15, 0, +15). -/
theorem Application.update_stops_before_shadow_light :
    (∀ (K : Type) [LinearOrderedField K] (flags : AppLayerFunctions)
        (_layers : List ApplicationLayer) (g : Game K) (inp : FrameInput K),
        g.deadbug = none →
          ∃ gf, (Application._Update flags _layers g inp).2.1 = .error gf
            ∧ gf.shadowLight = g.shadowLight)
      ∧ ∃ gf, (Application._Update Application.sampleFlags Application.sampleLayers
            Application.startGame (Application.frameAt 0 false)).2.1 = .error gf
          ∧ gf.followplayer = true
          ∧ gf.ladybug.position = ⟨28 / 5, 0, 1⟩
          ∧ gf.mainCamera = some ⟨⟨3 / 5, 287 / 25, 629 / 100⟩, ⟨84, 0, -180⟩, ⟨4 / 5, 4 / 5, 4 / 5⟩⟩
          ∧ gf.shadowLight = some ⟨⟨3, 3, 5⟩, ⟨0, 0, 0⟩, ⟨1, 1, 1⟩⟩
          ∧ gf.shadowLight ≠ some ⟨⟨3 / 5 - 15, 287 / 25, 629 / 100 + 15⟩, ⟨0, 0, 0⟩, ⟨1, 1, 1⟩⟩ := by
  refine ⟨?_, ?_⟩
  · intro K _ flags _layers g inp hd
    obtain ⟨gf, hf, _, hs⟩ := Application.gameLoop_faults g inp hd
    exact ⟨gf, hf, hs⟩
  · norm_num [Application._Update, Application.frameAt,
      Application.startGame, Application.gameLoop,
      Application.afterJump, Application.jumpCode, Application.flyCode, Application.slideCode,
      Application.lightsCode, Application.setLights_start, Application.moveCode,
      Application.followToggle, Application.followCamera, Application.winCode,
      Application.collisionReset, Application.particlesFollow, Application.shadowFollow,
      Application.collisionTests, Application.hitsMushroom, Application.inStrip,
      Application.jumpHeight, GameObject.SetPostion, DefaultSceneLayer.ladybugStart,
      bind, Except.bind, pure, Except.pure]

end Otter
